import Mathlib

/-!
# Verification of the `aws_managed_blockchain` wrapper library

A shallow embedding of the Python wrapper classes around the AWS
Managed Blockchain (`managedblockchain`) and Managed Blockchain Query
(`managedblockchain-query`) boto3 clients, together with theorems that
settle the specification's claims about them.

Modelling conventions:

* A boto3 client call is modelled as a function from the request value
  (a structure mirroring the keyword arguments the Python code passes)
  to `Except BotoErr resp`: `.ok` is a normal return, `.error` is a
  raised exception from the boto family.
* Remote responses are opaque: they are either a type variable, or
  an association list `List (String × β)` when the Python code reads
  specific keys out of the response dictionary.
* A wrapper method returns `Except PyErr r`: `.error` means the Python
  method raises (propagates) an exception to its caller, `.ok` means it
  returns normally.
* Python truthiness of optional arguments is made explicit
  (`strTruthy`, `natTruthy`): `None`, `""` and `0` are falsy.
* Module-level name resolution is modelled where it decides behaviour:
  a Python module only binds the names it imports, and evaluating an
  unbound global raises `NameError`.
-/

namespace AwsManagedBlockchain

/-- The service exceptions exposed as `client.exceptions.*` by the
managedblockchain client (each is a subclass of
`botocore.exceptions.ClientError`). -/
inductive RemoteErr where
  | invalidRequest
  | accessDenied
  | resourceNotFound
  | resourceAlreadyExists
  | resourceNotReady
  | throttling
  | resourceLimitExceeded
  | internalServiceError
  | tooManyTags
  deriving DecidableEq, Repr

/-- An exception raised by a boto3 client call.  `service e` is a
modelled service exception (`client.exceptions.*`, a `ClientError`
subclass), `clientError` is a generic `botocore.exceptions.ClientError`,
and `botoCore` is a `botocore.exceptions.BotoCoreError` (a separate
branch of the exception hierarchy, not caught by `except ClientError`). -/
inductive BotoErr where
  | service : RemoteErr → BotoErr
  | clientError : BotoErr
  | botoCore : BotoErr
  deriving DecidableEq, Repr

/-- An exception as seen by the caller of a wrapper method. -/
inductive PyErr where
  | boto : BotoErr → PyErr
  | nameError : String → PyErr
  | valueError : PyErr
  | keyError : PyErr
  deriving DecidableEq, Repr

/-- Python truthiness of an optional string: `None` and `""` are falsy. -/
def strTruthy : Option String → Bool
  | none => false
  | some s => s ≠ ""

/-- Python truthiness of an optional integer: `None` and `0` are falsy. -/
def natTruthy : Option Nat → Bool
  | none => false
  | some n => n ≠ 0

/-- `d[k]` on a Python dictionary: the value when the key is present,
`KeyError` otherwise. -/
def dictGet (d : List (String × α)) (k : String) : Except PyErr α :=
  match d.find? (fun kv => kv.1 = k) with
  | some kv => .ok kv.2
  | none => .error .keyError

/-- `d.get(k, default)` on a Python dictionary. -/
def dictGetD (d : List (String × α)) (k : String) (default : α) : α :=
  match d.find? (fun kv => kv.1 = k) with
  | some kv => kv.2
  | none => default

/-! ## Module-level name resolution

`src/managed_blockchain/managed_blockchain_admin.py` contains no
`import` statement at all, and `src/managed_blockchain/members.py`
imports `boto3`, `botocore` and names from `typing` but not `uuid`.
Evaluating an unimported global name in Python raises `NameError`. -/

/-- Global names bound in `managed_blockchain_admin.py`: the module has
no import statements. -/
def adminModuleImports : List String := []

/-- Global names bound by the import statements of `members.py`
(`import boto3`, `import botocore`, `from typing import ...`). -/
def membersModuleImports : List String := ["boto3", "botocore", "Optional", "Dict", "List"]

/-- Global names bound by the import statements of `accessors.py`
(`import boto3`, `import uuid`, `import botocore`, `from typing import ...`). -/
def accessorsModuleImports : List String := ["boto3", "uuid", "botocore", "Optional", "Dict", "List"]

/-- Evaluating the global name `n` in a module whose bound globals are
`imports`: a hit returns the name, a miss raises `NameError`. -/
def resolveName (imports : List String) (n : String) : Except PyErr Unit :=
  if n ∈ imports then .ok () else .error (.nameError n)

/-- A boto3 client value, identified by the service name it was created
for (`boto3.client(service)`). -/
structure BotoClient where
  service : String
  deriving DecidableEq, Repr

/-- `ManagedBlockchainAdmin.__init__`
(`managed_blockchain_admin.py`): evaluates
`boto3.client("managedblockchain")`, which first resolves the global
name `boto3` in the module's namespace. -/
def ManagedBlockchainAdmin_init : Except PyErr BotoClient :=
  match resolveName adminModuleImports "boto3" with
  | .ok _ => .ok ⟨"managedblockchain"⟩
  | .error e => .error e

/-- `ManagedBlockchainAccessors.__init__` (`accessors.py`): the module
imports `boto3`, so the same expression succeeds. -/
def ManagedBlockchainAccessors_init : Except PyErr BotoClient :=
  match resolveName accessorsModuleImports "boto3" with
  | .ok _ => .ok ⟨"managedblockchain"⟩
  | .error e => .error e

/-! ## Thin wrappers without exception handling

`managed_blockchain.py` (`ManagedBlockchain`) and
`managed_blockchain_query/transactions.py`
(`ManagedBlockchainQueryTransactions`) call their client with no
`try`/`except` at all: whatever the client raises propagates. -/

/-- The keyword arguments of `client.get_transaction(transactionHash=…,
network=…)` as passed by `ManagedBlockchain.get_transaction` and
`ManagedBlockchainQueryTransactions.get_transaction`. -/
structure GetTxKwargs where
  transactionHash : String
  network : String
  deriving DecidableEq, Repr

/-- `ManagedBlockchain.get_transaction` (`managed_blockchain.py`,
lines 11–17): calls the client with no `try`/`except` and returns
`response["transaction"]`. -/
def mb_get_transaction (client : GetTxKwargs → Except BotoErr (List (String × α)))
    (transaction_hash : String) (network : String := "ETHEREUM_MAINNET") :
    Except PyErr α := do
  let response ← (client ⟨transaction_hash, network⟩).mapError PyErr.boto
  dictGet response "transaction"

/-- `ManagedBlockchain.list_networks` (`managed_blockchain.py`, lines
7–9): `return self.client.list_networks()`, no handler. -/
def mb_list_networks (client : Unit → Except BotoErr α) : Except PyErr α :=
  (client ()).mapError PyErr.boto

/-- `ManagedBlockchainQueryTransactions.get_transaction`
(`managed_blockchain_query/transactions.py`, lines 7–9): returns the
client response directly, no handler. -/
def qt_get_transaction (client : GetTxKwargs → Except BotoErr α)
    (transaction_hash : String) (network : String) : Except PyErr α :=
  (client ⟨transaction_hash, network⟩).mapError PyErr.boto

/-- The keyword arguments of `client.list_transactions(address=…,
network=…)` as passed by `ManagedBlockchainQueryTransactions`. -/
structure ListTxKwargs where
  address : String
  network : String
  deriving DecidableEq, Repr

/-- `ManagedBlockchainQueryTransactions.list_transactions`
(`managed_blockchain_query/transactions.py`, lines 11–13): returns the
client response directly, no handler. -/
def qt_list_transactions (client : ListTxKwargs → Except BotoErr α)
    (address : String) (network : String) : Except PyErr α :=
  (client ⟨address, network⟩).mapError PyErr.boto

/-! ## `ManagedBlockchainAccessors.create_accessor` -/

/-- The keyword arguments of the `create_accessor` client call
(`accessors.py`, lines 20–25).  `tags` is a dictionary. -/
structure CreateAccessorKwargs where
  clientRequestToken : String
  accessorType : String
  tags : List (String × String)
  networkType : String
  deriving DecidableEq, Repr

/-- The service exceptions enumerated by the `except` clauses of
`create_accessor` (`accessors.py`, lines 27–40).  Note
`ResourceNotFoundException` is absent. -/
def createAccessorHandled : List RemoteErr :=
  [.invalidRequest, .accessDenied, .resourceAlreadyExists, .throttling,
   .resourceLimitExceeded, .internalServiceError, .tooManyTags]

/-- `ManagedBlockchainAccessors.create_accessor` (`accessors.py`, lines
11–42).  `uuidToken` stands for the `str(uuid.uuid4())` drawn at call
time.  Handled service exceptions are printed and the method falls
through to `return None`; anything else propagates. -/
def create_accessor (client : CreateAccessorKwargs → Except BotoErr α)
    (uuidToken : String) (network_type : String)
    (tags : Option (List (String × String)) := none) :
    Except PyErr (Option α) :=
  let sentTags := match tags with
    | some t => if t ≠ [] then t else []
    | none => []
  match client ⟨uuidToken, "BILLING_TOKEN", sentTags, network_type⟩ with
  | .ok r => .ok (some r)
  | .error (.service e) =>
      if e ∈ createAccessorHandled then .ok none else .error (.boto (.service e))
  | .error e => .error (.boto e)

/-! ## `ManagedBlockchainMembers.create_member` -/

/-- The `FrameworkConfiguration.Fabric` block of a member configuration
(`members.py`, lines 33–38). -/
structure FabricAdminConfig where
  adminUsername : String
  adminPassword : String
  deriving DecidableEq, Repr

/-- The nested `MemberConfiguration` dictionary assembled by
`create_member` (`members.py`, lines 30–50).  The
`LogPublishingConfiguration` block reduces to the single
`Fabric.CaLogs.Cloudwatch.Enabled` boolean. -/
structure MemberConfiguration where
  name : String
  description : String
  fabric : FabricAdminConfig
  caLogsCloudwatchEnabled : Bool
  tags : List (String × String)
  kmsKeyArn : String
  deriving DecidableEq, Repr

/-- The keyword arguments of the `create_member` client call
(`members.py`, lines 26–51). -/
structure CreateMemberKwargs where
  clientRequestToken : String
  invitationId : String
  networkId : String
  memberConfiguration : MemberConfiguration
  deriving DecidableEq, Repr

/-- The service exceptions enumerated by the `except` clauses of
`create_member` (`members.py`, lines 53–70). -/
def createMemberHandled : List RemoteErr :=
  [.invalidRequest, .accessDenied, .resourceNotFound, .resourceAlreadyExists,
   .resourceNotReady, .throttling, .resourceLimitExceeded,
   .internalServiceError, .tooManyTags]

/-- `ManagedBlockchainMembers.create_member` (`members.py`, lines
10–72).  The first evaluated argument is `str(uuid.uuid4())`, which
resolves the global `uuid` in the module namespace of `members.py`;
`uuidToken` stands for the token that call would produce.  A `NameError`
raised inside the `try` block matches none of the `except` clauses
(they catch only service exceptions), so it propagates. -/
def create_member (client : CreateMemberKwargs → Except BotoErr α)
    (uuidToken : String)
    (invitation_id network_id member_name admin_username admin_password : String)
    (description : Option String := none)
    (tags : Option (List (String × String)) := none)
    (kms_key_arn : Option String := none) :
    Except PyErr (Option α) :=
  match resolveName membersModuleImports "uuid" with
  | .error e => .error e
  | .ok _ =>
    let config : MemberConfiguration :=
      { name := member_name
        description := (if strTruthy description then description else none).getD ""
        fabric := ⟨admin_username, admin_password⟩
        caLogsCloudwatchEnabled := true
        tags := match tags with
          | some t => if t ≠ [] then t else []
          | none => []
        kmsKeyArn := (if strTruthy kms_key_arn then kms_key_arn else none).getD "" }
    match client ⟨uuidToken, invitation_id, network_id, config⟩ with
    | .ok r => .ok (some r)
    | .error (.service e) =>
        if e ∈ createMemberHandled then .ok none else .error (.boto (.service e))
    | .error e => .error (.boto e)

/-! ## `ManagedBlockchainPaginator` (`paginator.py`) -/

/-- Python's `str.capitalize()`: first character uppercased, the rest
lowercased. -/
def pyCapitalize (s : String) : String :=
  match s.data with
  | [] => ""
  | c :: cs => String.mk (c.toUpper :: cs.map Char.toLower)

/-- `ManagedBlockchainPaginator.paginate_operation` (`paginator.py`,
lines 30–49).  `get_paginator` (lines 9–28) returns `None` when
`can_paginate` is false, in which case the method returns `[]`.
Otherwise the loop extends `results` with
`page.get(operation_name.capitalize(), [])` for each remote page.  A
page is abstracted to its list-valued entries, the only ones this code
reads. -/
def paginate_operation (can_paginate : String → Bool)
    (pages : List (List (String × List α))) (operation_name : String) :
    List α :=
  if can_paginate operation_name then
    pages.foldl (fun results page =>
      results ++ dictGetD page (pyCapitalize operation_name) []) []
  else []

/-! ## Single-page list wrappers

Each `list_*` method assembles a `params` dictionary from its truthy
arguments, forwards it to the client, and returns the response
unchanged; a `botocore.exceptions.BotoCoreError` is printed and turned
into `{}`.  (Service exceptions subclass `ClientError`, not
`BotoCoreError`, and would propagate — but no claim exercises that in a
list wrapper.)  A response is abstracted to the two fields this code
ever reads: the operation's item list (present or absent) and
`NextToken`; the empty dictionary `{}` is the response with both
absent. -/

/-- A list-operation response restricted to the fields the repository
reads: `items` is the value under the operation's item key
(`'Accessors'`, `'Members'`, …) when that key is present, and
`nextToken` is `response.get('NextToken')`. -/
structure ListResp (α : Type) where
  items : Option (List α)
  nextToken : Option String
  deriving DecidableEq, Repr

/-- The empty-dictionary response `{}`. -/
def emptyResp : ListResp α := ⟨none, none⟩

/-- Params of `client.list_accessors` as assembled by
`ManagedBlockchainAccessors.list_accessors` (`accessors.py`,
lines 108–114): a key is present exactly when the argument is truthy. -/
structure ListAccessorsParams where
  maxResults : Option Nat
  nextToken : Option String
  networkType : Option String
  deriving DecidableEq, Repr

/-- `ManagedBlockchainAccessors.list_accessors` (`accessors.py`, lines
93–120). -/
def list_accessors (client : ListAccessorsParams → Except BotoErr (ListResp α))
    (max_results : Option Nat := none) (next_token : Option String := none)
    (network_type : Option String := none) : Except PyErr (ListResp α) :=
  let params : ListAccessorsParams :=
    { maxResults := if natTruthy max_results then max_results else none
      nextToken := if strTruthy next_token then next_token else none
      networkType := if strTruthy network_type then network_type else none }
  match client params with
  | .ok r => .ok r
  | .error .botoCore => .ok emptyResp
  | .error e => .error (.boto e)

/-- Params of `client.list_members` as assembled by
`ManagedBlockchainMembers.list_members` (`members.py`, lines 119–129).
`NetworkId` is always present; `IsOwned` is present exactly when
`is_owned is not None` (identity, not truthiness). -/
structure ListMembersParams where
  networkId : String
  name : Option String
  status : Option String
  isOwned : Option Bool
  maxResults : Option Nat
  nextToken : Option String
  deriving DecidableEq, Repr

/-- `ManagedBlockchainMembers.list_members` (`members.py`, lines
98–135). -/
def list_members (client : ListMembersParams → Except BotoErr (ListResp α))
    (network_id : String) (name : Option String := none)
    (status : Option String := none) (is_owned : Option Bool := none)
    (max_results : Option Nat := none) (next_token : Option String := none) :
    Except PyErr (ListResp α) :=
  let params : ListMembersParams :=
    { networkId := network_id
      name := if strTruthy name then name else none
      status := if strTruthy status then status else none
      isOwned := is_owned
      maxResults := if natTruthy max_results then max_results else none
      nextToken := if strTruthy next_token then next_token else none }
  match client params with
  | .ok r => .ok r
  | .error .botoCore => .ok emptyResp
  | .error e => .error (.boto e)

/-- Params of `client.list_networks` as assembled by
`ManagedBlockchainNetwork.list_networks` (`network.py`, lines 29–39). -/
structure ListNetworksParams where
  name : Option String
  framework : Option String
  status : Option String
  maxResults : Option Nat
  nextToken : Option String
  deriving DecidableEq, Repr

/-- `ManagedBlockchainNetwork.list_networks` (`network.py`, lines
10–45). -/
def list_networks (client : ListNetworksParams → Except BotoErr (ListResp α))
    (name : Option String := none) (framework : Option String := none)
    (status : Option String := none) (max_results : Option Nat := none)
    (next_token : Option String := none) : Except PyErr (ListResp α) :=
  let params : ListNetworksParams :=
    { name := if strTruthy name then name else none
      framework := if strTruthy framework then framework else none
      status := if strTruthy status then status else none
      maxResults := if natTruthy max_results then max_results else none
      nextToken := if strTruthy next_token then next_token else none }
  match client params with
  | .ok r => .ok r
  | .error .botoCore => .ok emptyResp
  | .error e => .error (.boto e)

/-- The keyword argument of the `get_network`/`delete_network` client
calls (`network.py`, lines 74 and 151). -/
structure NetworkIdKwargs where
  networkId : String
  deriving DecidableEq, Repr

/-- The service exceptions enumerated by the `except` clauses of
`ManagedBlockchainNetwork.get_network` (`network.py`, lines 76–85). -/
def getNetworkHandled : List RemoteErr :=
  [.invalidRequest, .accessDenied, .resourceNotFound, .throttling,
   .internalServiceError]

/-- `ManagedBlockchainNetwork.get_network` (`network.py`, lines 66–87):
success returns `response.get("Network", {})`; each enumerated service
exception is printed and the method falls through to `return None`;
anything else propagates. -/
def get_network
    (client : NetworkIdKwargs → Except BotoErr (List (String × List (String × β))))
    (network_id : String) : Except PyErr (Option (List (String × β))) :=
  match client ⟨network_id⟩ with
  | .ok response => .ok (some (dictGetD response "Network" []))
  | .error (.service e) =>
      if e ∈ getNetworkHandled then .ok none else .error (.boto (.service e))
  | .error e => .error (.boto e)

/-- The service exceptions enumerated by the `except` clauses of
`ManagedBlockchainNetwork.delete_network` (`network.py`, lines
154–163). -/
def deleteNetworkHandled : List RemoteErr :=
  [.invalidRequest, .accessDenied, .resourceNotFound, .throttling,
   .internalServiceError]

/-- `ManagedBlockchainNetwork.delete_network` (`network.py`, lines
143–165): success returns `True`; each enumerated service exception is
printed and the method falls through to `return False` — its sentinel
is `False`, not `None`; anything else propagates. -/
def delete_network (client : NetworkIdKwargs → Except BotoErr α)
    (network_id : String) : Except PyErr Bool :=
  match client ⟨network_id⟩ with
  | .ok _ => .ok true
  | .error (.service e) =>
      if e ∈ deleteNetworkHandled then .ok false else .error (.boto (.service e))
  | .error e => .error (.boto e)

/-- Params of `client.list_invitations` as assembled by
`ManagedBlockchainInvitations.list_invitations` (`invitations.py`,
lines 17–21). -/
structure ListInvitationsParams where
  maxResults : Option Nat
  nextToken : Option String
  deriving DecidableEq, Repr

/-- `ManagedBlockchainInvitations.list_invitations` (`invitations.py`,
lines 8–27). -/
def list_invitations (client : ListInvitationsParams → Except BotoErr (ListResp α))
    (max_results : Option Nat := none) (next_token : Option String := none) :
    Except PyErr (ListResp α) :=
  let params : ListInvitationsParams :=
    { maxResults := if natTruthy max_results then max_results else none
      nextToken := if strTruthy next_token then next_token else none }
  match client params with
  | .ok r => .ok r
  | .error .botoCore => .ok emptyResp
  | .error e => .error (.boto e)

/-- Params of `client.list_proposals` as assembled by
`ManagedBlockchainProposals.list_proposals` (`proposals.py`, lines
100–104). -/
structure ListProposalsParams where
  networkId : String
  maxResults : Option Nat
  nextToken : Option String
  deriving DecidableEq, Repr

/-- `ManagedBlockchainProposals.list_proposals` (`proposals.py`, lines
85–110). -/
def list_proposals (client : ListProposalsParams → Except BotoErr (ListResp α))
    (network_id : String) (max_results : Option Nat := none)
    (next_token : Option String := none) : Except PyErr (ListResp α) :=
  let params : ListProposalsParams :=
    { networkId := network_id
      maxResults := if natTruthy max_results then max_results else none
      nextToken := if strTruthy next_token then next_token else none }
  match client params with
  | .ok r => .ok r
  | .error .botoCore => .ok emptyResp
  | .error e => .error (.boto e)

/-- Params of `client.list_proposal_votes` as assembled by
`ManagedBlockchainProposals.list_proposal_votes` (`proposals.py`, lines
189–193). -/
structure ListProposalVotesParams where
  networkId : String
  proposalId : String
  maxResults : Option Nat
  nextToken : Option String
  deriving DecidableEq, Repr

/-- `ManagedBlockchainProposals.list_proposal_votes` (`proposals.py`,
lines 172–199). -/
def list_proposal_votes (client : ListProposalVotesParams → Except BotoErr (ListResp α))
    (network_id : String) (proposal_id : String)
    (max_results : Option Nat := none) (next_token : Option String := none) :
    Except PyErr (ListResp α) :=
  let params : ListProposalVotesParams :=
    { networkId := network_id
      proposalId := proposal_id
      maxResults := if natTruthy max_results then max_results else none
      nextToken := if strTruthy next_token then next_token else none }
  match client params with
  | .ok r => .ok r
  | .error .botoCore => .ok emptyResp
  | .error e => .error (.boto e)

/-- Params of `client.list_nodes` as assembled by
`ManagedBlockchainNodes.list_nodes` (`nodes.py`, lines 133–141). -/
structure ListNodesParams where
  networkId : String
  memberId : Option String
  status : Option String
  maxResults : Option Nat
  nextToken : Option String
  deriving DecidableEq, Repr

/-- `ManagedBlockchainNodes.list_nodes` (`nodes.py`, lines 114–147). -/
def list_nodes (client : ListNodesParams → Except BotoErr (ListResp α))
    (network_id : String) (member_id : Option String := none)
    (status : Option String := none) (max_results : Option Nat := none)
    (next_token : Option String := none) : Except PyErr (ListResp α) :=
  let params : ListNodesParams :=
    { networkId := network_id
      memberId := if strTruthy member_id then member_id else none
      status := if strTruthy status then status else none
      maxResults := if natTruthy max_results then max_results else none
      nextToken := if strTruthy next_token then next_token else none }
  match client params with
  | .ok r => .ok r
  | .error .botoCore => .ok emptyResp
  | .error e => .error (.boto e)

/-! ## The `get_all_*` pagination-accumulation loops

Every `get_all_*` method is the same `while True:` loop: fetch a page
via the single-page wrapper, extend the accumulator with the item list
when its key is present, read `NextToken`, and break when it is falsy.
`paginateLoop` is that loop with the page fetch abstracted and an
explicit fuel bound (`none` = the loop did not finish within `fuel`
iterations); each `get_all_*` below instantiates it with its own
wrapper exactly as the Python method does. -/

/-- The shared `while True:` accumulation loop body of the `get_all_*`
methods. -/
def paginateLoop (fetch : Option String → Except PyErr (ListResp α)) :
    Nat → Option String → List α → Option (Except PyErr (List α))
  | 0, _, _ => none
  | fuel + 1, next_token, acc =>
    match fetch next_token with
    | .error e => some (.error e)
    | .ok response =>
      let acc := acc ++ response.items.getD []
      let nt := response.nextToken
      if strTruthy nt then paginateLoop fetch fuel nt acc
      else some (.ok acc)

/-- `ManagedBlockchainAccessors.get_all_accessors` (`accessors.py`,
lines 122–140): loops `self.list_accessors(next_token=next_token,
network_type=network_type)`. -/
def get_all_accessors (client : ListAccessorsParams → Except BotoErr (ListResp α))
    (network_type : Option String := none) (fuel : Nat := 0) :
    Option (Except PyErr (List α)) :=
  paginateLoop (fun tok => list_accessors client none tok network_type) fuel none []

/-- `ManagedBlockchainMembers.get_all_members` (`members.py`, lines
137–155): loops `self.list_members(network_id=network_id,
next_token=next_token)`. -/
def get_all_members (client : ListMembersParams → Except BotoErr (ListResp α))
    (network_id : String) (fuel : Nat := 0) :
    Option (Except PyErr (List α)) :=
  paginateLoop (fun tok => list_members client network_id none none none none tok)
    fuel none []

/-- `ManagedBlockchainNetwork.get_all_networks` (`network.py`, lines
47–64): loops `self.list_networks(next_token=next_token)`. -/
def get_all_networks (client : ListNetworksParams → Except BotoErr (ListResp α))
    (fuel : Nat := 0) : Option (Except PyErr (List α)) :=
  paginateLoop (fun tok => list_networks client none none none none tok) fuel none []

/-- `ManagedBlockchainInvitations.get_all_invitations`
(`invitations.py`, lines 29–46): loops
`self.list_invitations(next_token=next_token)`. -/
def get_all_invitations
    (client : ListInvitationsParams → Except BotoErr (ListResp α))
    (fuel : Nat := 0) : Option (Except PyErr (List α)) :=
  paginateLoop (fun tok => list_invitations client none tok) fuel none []

/-- `ManagedBlockchainNodes.get_all_nodes` (`nodes.py`, lines 149–168):
loops `self.list_nodes(network_id=network_id, member_id=member_id,
next_token=next_token)`. -/
def get_all_nodes (client : ListNodesParams → Except BotoErr (ListResp α))
    (network_id : String) (member_id : Option String := none)
    (fuel : Nat := 0) : Option (Except PyErr (List α)) :=
  paginateLoop (fun tok => list_nodes client network_id member_id none none tok)
    fuel none []

/-- `ManagedBlockchainProposals.get_all_proposals` (`proposals.py`,
lines 112–130): loops `self.list_proposals(network_id=network_id,
next_token=next_token)`. -/
def get_all_proposals
    (client : ListProposalsParams → Except BotoErr (ListResp α))
    (network_id : String) (fuel : Nat := 0) :
    Option (Except PyErr (List α)) :=
  paginateLoop (fun tok => list_proposals client network_id none tok) fuel none []

/-- `ManagedBlockchainProposals.get_all_proposal_votes`
(`proposals.py`, lines 201–220): loops
`self.list_proposal_votes(network_id=network_id,
proposal_id=proposal_id, next_token=next_token)`. -/
def get_all_proposal_votes
    (client : ListProposalVotesParams → Except BotoErr (ListResp α))
    (network_id : String) (proposal_id : String) (fuel : Nat := 0) :
    Option (Except PyErr (List α)) :=
  paginateLoop (fun tok => list_proposal_votes client network_id proposal_id none tok)
    fuel none []

/-- The in-order concatenation of the item lists of pages
`j, j+1, …, j+d` of a page sequence `p` (a missing item key contributes
nothing, as in the loop body). -/
def itemsFrom (p : Nat → ListResp α) (j : Nat) : Nat → List α
  | 0 => (p j).items.getD []
  | d + 1 => (p j).items.getD [] ++ itemsFrom p (j + 1) d

/-! ## `ManagedBlockchainQuery.get_token_balance`
(`managed_blockchain_query/managed_blockchain_query.py`, lines 67–102)

The timestamp type is kept abstract (`τ`); a Python `datetime` object
is always truthy, so `if timestamp:` is `timestamp.isSome`. -/

/-- An `atBlockchainInstant` value `{"time": timestamp}`. -/
structure BlockchainInstant (τ : Type) where
  time : τ
  deriving DecidableEq, Repr

/-- The `tokenIdentifier` dictionary built at lines 80–86: `network`
always, `contractAddress` and `tokenId` exactly when the corresponding
argument is truthy. -/
structure TokenIdentifier where
  network : String
  contractAddress : Option String
  tokenId : Option String
  deriving DecidableEq, Repr

/-- The `ownerIdentifier` dictionary (lines 90–92). -/
structure OwnerIdentifier where
  address : String
  deriving DecidableEq, Repr

/-- The full `request_payload` of `get_token_balance` (lines 88–95). -/
structure GetTokenBalanceReq (τ : Type) where
  tokenIdentifier : TokenIdentifier
  ownerIdentifier : OwnerIdentifier
  atBlockchainInstant : Option (BlockchainInstant τ)
  deriving DecidableEq, Repr

/-- The request-payload assembly of `get_token_balance` (lines 80–95). -/
def getTokenBalanceRequest (network : String) (owner_address : String)
    (contract_address : Option String) (token_id : Option String)
    (timestamp : Option τ) : GetTokenBalanceReq τ :=
  let token_identifier : TokenIdentifier :=
    { network := network
      contractAddress := if strTruthy contract_address then contract_address else none
      tokenId := if strTruthy token_id then token_id else none }
  { tokenIdentifier := token_identifier
    ownerIdentifier := ⟨owner_address⟩
    atBlockchainInstant := timestamp.map (fun t => ⟨t⟩) }

/-- `ManagedBlockchainQuery.get_token_balance` (lines 67–102): sends
the assembled payload and returns the response; a `BotoCoreError` is
printed and turned into `{}`. -/
def get_token_balance
    (client : GetTokenBalanceReq τ → Except BotoErr (List (String × β)))
    (network : String) (owner_address : String)
    (contract_address : Option String := none)
    (token_id : Option String := none) (timestamp : Option τ := none) :
    Except PyErr (List (String × β)) :=
  match client (getTokenBalanceRequest network owner_address contract_address
      token_id timestamp) with
  | .ok r => .ok r
  | .error .botoCore => .ok []
  | .error e => .error (.boto e)

/-! ## `ManagedBlockchainQuery.get_transaction`
(`managed_blockchain_query/managed_blockchain_query.py`, lines 104–131)

The embedding additionally returns the list of requests actually sent
to the client, so that "performs no remote call" is a statement about
the result. -/

/-- The `request_payload` of `ManagedBlockchainQuery.get_transaction`
(lines 118–124): `transactionHash` when truthy, `transactionId` only
when truthy *and* the network is a Bitcoin network. -/
structure QueryGetTxReq where
  network : String
  transactionHash : Option String
  transactionId : Option String
  deriving DecidableEq, Repr

/-- `ManagedBlockchainQuery.get_transaction` (lines 104–131), paired
with the list of client calls it performs.  With both identifiers falsy
it raises `ValueError` before any call; otherwise it sends the payload
and turns a `BotoCoreError` into `{}`. -/
def query_get_transaction
    (client : QueryGetTxReq → Except BotoErr (List (String × β)))
    (network : String) (transaction_hash : Option String := none)
    (transaction_id : Option String := none) :
    List QueryGetTxReq × Except PyErr (List (String × β)) :=
  if strTruthy transaction_hash = false ∧ strTruthy transaction_id = false then
    ([], .error .valueError)
  else
    let request_payload : QueryGetTxReq :=
      { network := network
        transactionHash := if strTruthy transaction_hash then transaction_hash else none
        transactionId :=
          if strTruthy transaction_id ∧
              network ∈ ["BITCOIN_MAINNET", "BITCOIN_TESTNET"] then
            transaction_id
          else none }
    ([request_payload],
      match client request_payload with
      | .ok r => .ok r
      | .error .botoCore => .ok []
      | .error e => .error (.boto e))

/-! ## `ManagedBlockchainProposals.vote_on_proposal`
(`proposals.py`, lines 144–170) -/

/-- The keyword arguments of the `vote_on_proposal` client call
(`proposals.py`, lines 159–164). -/
structure VoteOnProposalKwargs where
  networkId : String
  proposalId : String
  voterMemberId : String
  vote : String
  deriving DecidableEq, Repr

/-- `ManagedBlockchainProposals.vote_on_proposal` (lines 144–170),
paired with the list of client calls it performs.  A vote outside
`{"YES", "NO"}` is rejected before any call; a `BotoCoreError` from the
call yields `False`, success yields `True`. -/
def vote_on_proposal (client : VoteOnProposalKwargs → Except BotoErr α)
    (network_id proposal_id voter_member_id vote : String) :
    List VoteOnProposalKwargs × Except PyErr Bool :=
  if vote ∉ ["YES", "NO"] then
    ([], .ok false)
  else
    let kwargs : VoteOnProposalKwargs :=
      ⟨network_id, proposal_id, voter_member_id, vote⟩
    ([kwargs],
      match client kwargs with
      | .ok _ => .ok true
      | .error .botoCore => .ok false
      | .error e => .error (.boto e))

/-! ## A heap model for the frame property (no caller mutation)

Request assembly in Python works on mutable dictionaries; to state that
a wrapper never mutates a caller-supplied dictionary or list, the
assemblies that perform subscript assignment are re-embedded over an
explicit store.  Objects live at indices of the store; caller-supplied
collections are passed as references; a dictionary literal allocates a
fresh object; `d[k] = v` mutates the object at `d`'s reference.  The
frame property is: the final store restricted to the initially
allocated indices is the initial store. -/

/-- A Python value in the heap model: scalars, `None`, an opaque
datetime, or a reference to a heap object. -/
inductive HVal where
  | str : String → HVal
  | boolV : Bool → HVal
  | intV : Int → HVal
  | timeV : Nat → HVal
  | noneV : HVal
  | ref : Nat → HVal
  deriving DecidableEq, Repr

/-- An `Optional[int]` argument stored as-is into a dictionary literal
(`None` included), as in a `PaginationConfig`. -/
def optNatV : Option Nat → HVal
  | some n => .intV n
  | none => .noneV

/-- An `Optional[str]` argument stored as-is into a dictionary literal. -/
def optStrV : Option String → HVal
  | some t => .str t
  | none => .noneV

/-- A heap object: a dictionary or a list. -/
inductive HObj where
  | dict : List (String × HVal) → HObj
  | arr : List HVal → HObj
  deriving DecidableEq, Repr

/-- The store: heap objects addressed by their index. -/
abbrev Store := List HObj

/-- Allocate a fresh object (a dictionary or list literal), returning
its reference. -/
def alloc (s : Store) (o : HObj) : Store × Nat := (s ++ [o], s.length)

/-- `d[k] = v` on a dictionary's entry list. -/
def dictSet (d : List (String × HVal)) (k : String) (v : HVal) :
    List (String × HVal) :=
  if (d.find? (fun kv => kv.1 = k)).isSome then
    d.map (fun kv => if kv.1 = k then (k, v) else kv)
  else d ++ [(k, v)]

/-- `obj[k] = v` through a reference: mutates the dictionary at index
`r` of the store in place. -/
def setKey (s : Store) (r : Nat) (k : String) (v : HVal) : Store :=
  match s.get? r with
  | some (HObj.dict d) => s.set r (.dict (dictSet d k v))
  | _ => s

/-- Python truthiness of an optional collection reference: `None` is
falsy, a reference is truthy exactly when the collection it points to is
non-empty. -/
def truthyOptRef (s : Store) : Option Nat → Bool
  | none => false
  | some r =>
    match s.get? r with
    | some (HObj.dict d) => d ≠ []
    | some (HObj.arr l) => l ≠ []
    | none => false

/-- The `timeFilter` block of `list_filtered_transaction_events`
(`managed_blockchain_query.py`, lines 253–258): allocate `{}`, store it
under `"timeFilter"` of the request at `r`, then store fresh
`{"time": …}` dictionaries under its `"from"`/`"to"` keys. -/
def lfteTimeFilter (s : Store) (r : Nat) (from_time to_time : Option Nat) :
    Store :=
  if from_time.isSome ∨ to_time.isSome then
    let (s1, tf) := alloc s (.dict [])
    let s2 := setKey s1 r "timeFilter" (.ref tf)
    let s3 :=
      match from_time with
      | some t =>
        let (s', f) := alloc s2 (.dict [("time", .timeV t)])
        setKey s' tf "from" (.ref f)
      | none => s2
    match to_time with
    | some t =>
      let (s', g) := alloc s3 (.dict [("time", .timeV t)])
      setKey s' tf "to" (.ref g)
    | none => s3
  else s

/-- The `voutFilter` step of `list_filtered_transaction_events`
(`managed_blockchain_query.py`, lines 260–261): when `vout_spent is not
None`, allocate `{"voutSpent": …}` and store it under the request's
`"voutFilter"` key. -/
def lfteVoutStep (s : Store) (r : Nat) (vout_spent : Option Bool) : Store :=
  match vout_spent with
  | some b =>
    let (s', v) := alloc s (.dict [("voutSpent", .boolV b)])
    setKey s' r "voutFilter" (.ref v)
  | none => s

/-- The `confirmationStatusFilter` step (lines 263–264): when the
caller's status list is truthy, allocate `{"include": ref}` holding the
caller's list by reference and store it under the request. -/
def lfteCsStep (s : Store) (r : Nat) (confirmation_status : Option Nat) :
    Store :=
  if truthyOptRef s confirmation_status then
    let (s', c) := alloc s (.dict [("include", .ref (confirmation_status.getD 0))])
    setKey s' r "confirmationStatusFilter" (.ref c)
  else s

/-- The `nextToken` step (lines 266–267): when truthy, write the token
string into the request. -/
def lfteNtStep (s : Store) (r : Nat) (next_token : Option String) : Store :=
  if strTruthy next_token then
    setKey s r "nextToken" (.str (next_token.getD ""))
  else s

/-- The request assembly of
`ManagedBlockchainQuery.list_filtered_transaction_events`
(`managed_blockchain_query.py`, lines 246–267) in the heap model.
`addrRef` is the caller's `transaction_event_to_address` list and
`confirmation_status` the caller's optional status list; both enter the
request as references, never copied and never written.  Returns the
final store and the reference of `request_params`. -/
def lfte_assemble (s : Store) (network : String) (addrRef : Nat)
    (from_time to_time : Option Nat) (vout_spent : Option Bool)
    (confirmation_status : Option Nat) (sort_by sort_order : String)
    (next_token : Option String) (max_results : Int) : Store × Nat :=
  let (s1, a1) := alloc s (.dict [("transactionEventToAddress", .ref addrRef)])
  let (s2, a2) := alloc s1 (.dict [("sortBy", .str sort_by), ("sortOrder", .str sort_order)])
  let (s3, r) := alloc s2 (.dict
    [("network", .str network), ("addressIdentifierFilter", .ref a1),
     ("sort", .ref a2), ("maxResults", .intV max_results)])
  let s4 := lfteTimeFilter s3 r from_time to_time
  let s5 := lfteVoutStep s4 r vout_spent
  let s6 := lfteCsStep s5 r confirmation_status
  let s7 := lfteNtStep s6 r next_token
  (s7, r)

/-- The keyword assembly of `ManagedBlockchainAccessors.create_accessor`
(`accessors.py`, lines 20–25) in the heap model: the only collection
involved is `Tags=tags if tags else {}`, which passes the caller's
dictionary by reference when truthy and otherwise allocates a fresh
`{}`.  Returns the final store and the value passed as `Tags`. -/
def create_accessor_tags_arg (s : Store) (tags : Option Nat) : Store × HVal :=
  if truthyOptRef s tags then (s, .ref (tags.getD 0))
  else
    let (s', r) := alloc s (.dict [])
    (s', .ref r)

/-- `ManagedBlockchainQuery.batch_get_token_balance`
(`managed_blockchain_query.py`, lines 12–45) in the heap model: the
caller's `token_requests` list is passed to the client by reference,
and the method then allocates a fresh result dictionary
`{"tokenBalances": …, "errors": …}` from the response.  Returns the
final store and the result reference. -/
def batch_get_token_balance_heap (s : Store) (tokenRequestsRef : Nat)
    (respBalances respErrors : HVal) : Store × Nat :=
  let _ := HVal.ref tokenRequestsRef
  alloc s (.dict [("tokenBalances", respBalances), ("errors", respErrors)])

/-! ### Assembly-step combinators

The remaining assemblies are compositions of three statement shapes,
each mirrored by one combinator whose optional argument carries the
Python condition together with the value written when it held
(`none` = condition falsy, statement skipped):
`if cond: d[k] = scalar` (`condSetKey`),
`if cond: d[k] = {fresh literal}` (`condAllocSetKey`), and
`if cond: d[k] = {k2: [fresh list literal]}` (`condAllocListSetKey`). -/

/-- `if cond: d[k] = v` for a scalar `v`. -/
def condSetKey (s : Store) (r : Nat) (k : String) (v : Option HVal) : Store :=
  match v with
  | some v => setKey s r k v
  | none => s

/-- `if cond: d[k] = {…}` — allocate the literal, store its reference. -/
def condAllocSetKey (s : Store) (r : Nat) (k : String) (o : Option HObj) :
    Store :=
  match o with
  | some o =>
    let (s', x) := alloc s o
    setKey s' r k (.ref x)
  | none => s

/-- `if cond: d[k] = {k2: [v₁, …]}` — allocate the list literal, then
the enclosing dictionary, then store its reference. -/
def condAllocListSetKey (s : Store) (r : Nat) (k k2 : String)
    (o : Option (List HVal)) : Store :=
  match o with
  | some items =>
    let (s1, lst) := alloc s (.arr items)
    let (s2, d) := alloc s1 (.dict [(k2, .ref lst)])
    setKey s2 r k (.ref d)
  | none => s

/-- `tags if tags else {}` in the heap model: the caller's dictionary by
reference when truthy, a fresh `{}` otherwise (as in `create_accessor`,
`create_member`, `create_network` and `create_node`). -/
def tagsOrEmptyHeap (s : Store) (tags : Option Nat) : Store × HVal :=
  if truthyOptRef s tags then (s, .ref (tags.getD 0))
  else
    let (s', t) := alloc s (.dict [])
    (s', .ref t)

/-- A sequence of `if arg: params[key] = arg` statements applied to the
dictionary at `r`, in source order. -/
def applyWrites (r : Nat) (writes : List (String × Option HVal))
    (s : Store) : Store :=
  writes.foldl (fun st kv =>
    match kv.2 with
    | some v => setKey st r kv.1 v
    | none => st) s

/-- The `params = {…}` / conditional-write pattern shared by every
single-page `list_*` wrapper (and `get_node`/`delete_node`): allocate
the literal, then apply the conditional writes to it. -/
def paramsPattern (s : Store) (init : List (String × HVal))
    (writes : List (String × Option HVal)) : Store × Nat :=
  let (s1, r) := alloc s (.dict init)
  (applyWrites r writes s1, r)

/-! ### The `params` assemblies of the `managedblockchain` wrappers -/

/-- `list_accessors` params assembly (`accessors.py`, lines 108–114). -/
def list_accessors_params_heap (s : Store) (max_results : Option Nat)
    (next_token network_type : Option String) : Store × Nat :=
  paramsPattern s []
    [("MaxResults", if natTruthy max_results then
        some (.intV (max_results.getD 0)) else none),
     ("NextToken", if strTruthy next_token then
        some (.str (next_token.getD "")) else none),
     ("NetworkType", if strTruthy network_type then
        some (.str (network_type.getD "")) else none)]

/-- `list_members` params assembly (`members.py`, lines 119–129);
`IsOwned` is written on `is not None`. -/
def list_members_params_heap (s : Store) (network_id : String)
    (name status : Option String) (is_owned : Option Bool)
    (max_results : Option Nat) (next_token : Option String) : Store × Nat :=
  paramsPattern s [("NetworkId", .str network_id)]
    [("Name", if strTruthy name then some (.str (name.getD "")) else none),
     ("Status", if strTruthy status then some (.str (status.getD "")) else none),
     ("IsOwned", is_owned.map (fun b => .boolV b)),
     ("MaxResults", if natTruthy max_results then
        some (.intV (max_results.getD 0)) else none),
     ("NextToken", if strTruthy next_token then
        some (.str (next_token.getD "")) else none)]

/-- `list_networks` params assembly (`network.py`, lines 29–39). -/
def list_networks_params_heap (s : Store)
    (name framework status : Option String) (max_results : Option Nat)
    (next_token : Option String) : Store × Nat :=
  paramsPattern s []
    [("Name", if strTruthy name then some (.str (name.getD "")) else none),
     ("Framework", if strTruthy framework then
        some (.str (framework.getD "")) else none),
     ("Status", if strTruthy status then some (.str (status.getD "")) else none),
     ("MaxResults", if natTruthy max_results then
        some (.intV (max_results.getD 0)) else none),
     ("NextToken", if strTruthy next_token then
        some (.str (next_token.getD "")) else none)]

/-- `list_invitations` params assembly (`invitations.py`, lines 17–21). -/
def list_invitations_params_heap (s : Store) (max_results : Option Nat)
    (next_token : Option String) : Store × Nat :=
  paramsPattern s []
    [("MaxResults", if natTruthy max_results then
        some (.intV (max_results.getD 0)) else none),
     ("NextToken", if strTruthy next_token then
        some (.str (next_token.getD "")) else none)]

/-- `list_proposals` params assembly (`proposals.py`, lines 100–104). -/
def list_proposals_params_heap (s : Store) (network_id : String)
    (max_results : Option Nat) (next_token : Option String) : Store × Nat :=
  paramsPattern s [("NetworkId", .str network_id)]
    [("MaxResults", if natTruthy max_results then
        some (.intV (max_results.getD 0)) else none),
     ("NextToken", if strTruthy next_token then
        some (.str (next_token.getD "")) else none)]

/-- `list_proposal_votes` params assembly (`proposals.py`, lines
189–193). -/
def list_proposal_votes_params_heap (s : Store)
    (network_id proposal_id : String) (max_results : Option Nat)
    (next_token : Option String) : Store × Nat :=
  paramsPattern s
    [("NetworkId", .str network_id), ("ProposalId", .str proposal_id)]
    [("MaxResults", if natTruthy max_results then
        some (.intV (max_results.getD 0)) else none),
     ("NextToken", if strTruthy next_token then
        some (.str (next_token.getD "")) else none)]

/-- `list_nodes` params assembly (`nodes.py`, lines 133–141). -/
def list_nodes_params_heap (s : Store) (network_id : String)
    (member_id status : Option String) (max_results : Option Nat)
    (next_token : Option String) : Store × Nat :=
  paramsPattern s [("NetworkId", .str network_id)]
    [("MemberId", if strTruthy member_id then
        some (.str (member_id.getD "")) else none),
     ("Status", if strTruthy status then some (.str (status.getD "")) else none),
     ("MaxResults", if natTruthy max_results then
        some (.intV (max_results.getD 0)) else none),
     ("NextToken", if strTruthy next_token then
        some (.str (next_token.getD "")) else none)]

/-- `get_node` params assembly (`nodes.py`, lines 95–97). -/
def get_node_params_heap (s : Store) (network_id node_id : String)
    (member_id : Option String) : Store × Nat :=
  paramsPattern s
    [("NetworkId", .str network_id), ("NodeId", .str node_id)]
    [("MemberId", if strTruthy member_id then
        some (.str (member_id.getD "")) else none)]

/-- `delete_node` params assembly (`nodes.py`, lines 181–186). -/
def delete_node_params_heap (s : Store) (network_id node_id : String)
    (member_id : Option String) : Store × Nat :=
  paramsPattern s
    [("NetworkId", .str network_id), ("NodeId", .str node_id)]
    [("MemberId", if strTruthy member_id then
        some (.str (member_id.getD "")) else none)]

/-! ### The create-operation assemblies -/

/-- The collection-bearing keyword assembly of
`ManagedBlockchainNetwork.create_network` (`network.py`, lines
114–124): `FrameworkConfiguration` and `VotingPolicy` are fresh nested
literals — the latter holding the caller's `voting_policy` by
reference — `MemberConfiguration` is the caller's dictionary by
reference, and `Tags` is `tags if tags else {}`.  Returns the final
store and the `Tags` value. -/
def create_network_kwargs_heap (s : Store) (edition : String)
    (voting_policy member_config : Nat) (tags : Option Nat) :
    Store × HVal :=
  let (s1, fabric) := alloc s (.dict [("Edition", .str edition)])
  let (s2, _fwConfig) := alloc s1 (.dict [("Fabric", .ref fabric)])
  let (s3, _votePol) := alloc s2
    (.dict [("ApprovalThresholdPolicy", .ref voting_policy)])
  let _ := HVal.ref member_config
  tagsOrEmptyHeap s3 tags

/-- The `MemberConfiguration` literal of
`ManagedBlockchainMembers.create_member` (`members.py`, lines 30–50) in
the heap model (the literal as the source spells it out; at runtime the
preceding `str(uuid.uuid4())` raises `NameError` first, touching
nothing at all).  Every nested dictionary is a fresh literal; `Tags` is
`tags if tags else {}`.  Returns the final store and the configuration
reference. -/
def create_member_config_heap (s : Store) (member_name : String)
    (description : Option String) (admin_username admin_password : String)
    (tags : Option Nat) (kms_key_arn : Option String) : Store × Nat :=
  let (s1, fabric) := alloc s
    (.dict [("AdminUsername", .str admin_username),
            ("AdminPassword", .str admin_password)])
  let (s2, fwConfig) := alloc s1 (.dict [("Fabric", .ref fabric)])
  let (s3, cw) := alloc s2 (.dict [("Enabled", .boolV true)])
  let (s4, caLogs) := alloc s3 (.dict [("Cloudwatch", .ref cw)])
  let (s5, fabLogs) := alloc s4 (.dict [("CaLogs", .ref caLogs)])
  let (s6, logPub) := alloc s5 (.dict [("Fabric", .ref fabLogs)])
  let (s7, tagsVal) := tagsOrEmptyHeap s6 tags
  alloc s7 (.dict
    [("Name", .str member_name),
     ("Description", .str ((if strTruthy description then description
        else none).getD "")),
     ("FrameworkConfiguration", .ref fwConfig),
     ("LogPublishingConfiguration", .ref logPub),
     ("Tags", tagsVal),
     ("KmsKeyArn", .str ((if strTruthy kms_key_arn then kms_key_arn
        else none).getD ""))])

/-- The `node_config` and `Tags` assembly of
`ManagedBlockchainNodes.create_node` (`nodes.py`, lines 35–60): nested
fresh literals, a conditional `node_config["AvailabilityZone"] = …`
write into the fresh `node_config`, and `Tags = tags if tags else {}`.
Returns the final store, the `node_config` reference and the `Tags`
value. -/
def create_node_heap (s : Store) (instance_type : String)
    (availability_zone : Option String)
    (enable_chaincode_logs enable_peer_logs : Bool) (state_db : String)
    (tags : Option Nat) : Store × Nat × HVal :=
  let (s1, ccCw) := alloc s (.dict [("Enabled", .boolV enable_chaincode_logs)])
  let (s2, ccLogs) := alloc s1 (.dict [("Cloudwatch", .ref ccCw)])
  let (s3, peerCw) := alloc s2 (.dict [("Enabled", .boolV enable_peer_logs)])
  let (s4, peerLogs) := alloc s3 (.dict [("Cloudwatch", .ref peerCw)])
  let (s5, fabric) := alloc s4
    (.dict [("ChaincodeLogs", .ref ccLogs), ("PeerLogs", .ref peerLogs)])
  let (s6, logPub) := alloc s5 (.dict [("Fabric", .ref fabric)])
  let (s7, node_config) := alloc s6
    (.dict [("InstanceType", .str instance_type),
            ("LogPublishingConfiguration", .ref logPub),
            ("StateDB", .str state_db)])
  let s8 := condSetKey s7 node_config "AvailabilityZone"
    (if strTruthy availability_zone then
      some (.str (availability_zone.getD "")) else none)
  let (s9, tagsVal) := tagsOrEmptyHeap s8 tags
  (s9, node_config, tagsVal)

/-- The elements of the list object at `r`, `[]` when absent. -/
def arrContents (s : Store) : Option Nat → List HVal
  | none => []
  | some r =>
    match s.get? r with
    | some (HObj.arr l) => l
    | _ => []

/-- `[{key: x} for x in xs]`: one fresh dictionary per element of the
caller's list (the elements are read, never written). -/
def allocDictsEach (key : String) : List HVal → Store → Store × List HVal
  | [], s => (s, [])
  | v :: rest, s =>
    let (s1, d) := alloc s (.dict [(key, v)])
    let (s2, ds) := allocDictsEach key rest s1
    (s2, .ref d :: ds)

/-- `if xs: actions[k] = [{key: x} for x in xs]`: the comprehension
allocates fresh dictionaries and a fresh list, then writes into the
fresh `actions`. -/
def condComprehensionSetKey (s : Store) (r : Nat) (k key : String)
    (src : Option Nat) : Store :=
  if truthyOptRef s src then
    let (s', ds) := allocDictsEach key (arrContents s src) s
    let (s'', lst) := alloc s' (.arr ds)
    setKey s'' r k (.ref lst)
  else s

/-- The `actions` assembly of
`ManagedBlockchainProposals.create_proposal` (`proposals.py`, lines
32–41): `actions = {}` then the two conditional comprehensions over
the caller's `invitations` and `removals` lists.  Returns the final
store and the `actions` reference. -/
def create_proposal_actions_heap (s : Store)
    (invitations removals : Option Nat) : Store × Nat :=
  let (s1, actions) := alloc s (.dict [])
  let s2 := condComprehensionSetKey s1 actions "Invitations" "Principal"
    invitations
  let s3 := condComprehensionSetKey s2 actions "Removals" "MemberId" removals
  (s3, actions)

/-- `ManagedBlockchainTags.tag_resource` (`tags.py`): the caller's
`tags` dictionary is passed to the client by reference; nothing is
allocated or written. -/
def tag_resource_heap (s : Store) (resource_arn : String) (tagsRef : Nat) :
    Store × HVal :=
  let _ := resource_arn
  (s, .ref tagsRef)

/-- `ManagedBlockchainTags.untag_resource` (`tags.py`): the caller's
`tag_keys` list is passed by reference; nothing is allocated or
written. -/
def untag_resource_heap (s : Store) (resource_arn : String)
    (tagKeysRef : Nat) : Store × HVal :=
  let _ := resource_arn
  (s, .ref tagKeysRef)

/-! ### The remaining query-side assemblies with subscript writes -/

/-- The request assembly of `ManagedBlockchainQuery.get_token_balance`
(`managed_blockchain_query.py`, lines 80–95): conditional writes into
the fresh `token_identifier`, a fresh `ownerIdentifier` and
`request_payload`, and a conditional `atBlockchainInstant` literal
written into the fresh payload. -/
def gtb_assemble (s : Store) (network owner_address : String)
    (contract_address token_id : Option String) (timestamp : Option Nat) :
    Store × Nat :=
  let (s1, ti) := alloc s (.dict [("network", .str network)])
  let s2 := condSetKey s1 ti "contractAddress"
    (if strTruthy contract_address then
      some (.str (contract_address.getD "")) else none)
  let s3 := condSetKey s2 ti "tokenId"
    (if strTruthy token_id then some (.str (token_id.getD "")) else none)
  let (s4, owner) := alloc s3 (.dict [("address", .str owner_address)])
  let (s5, rp) := alloc s4
    (.dict [("tokenIdentifier", .ref ti), ("ownerIdentifier", .ref owner)])
  let s6 := condAllocSetKey s5 rp "atBlockchainInstant"
    (timestamp.map (fun t => .dict [("time", .timeV t)]))
  (s6, rp)

/-- The request assembly of `ManagedBlockchainQuery.get_transaction`
(`managed_blockchain_query.py`, lines 118–124): conditional scalar
writes into the fresh `request_payload`. -/
def qgt_assemble (s : Store) (network : String)
    (transaction_hash transaction_id : Option String) : Store × Nat :=
  let (s1, rp) := alloc s (.dict [("network", .str network)])
  let s2 := condSetKey s1 rp "transactionHash"
    (if strTruthy transaction_hash then
      some (.str (transaction_hash.getD "")) else none)
  let s3 := condSetKey s2 rp "transactionId"
    (if strTruthy transaction_id ∧
        network ∈ ["BITCOIN_MAINNET", "BITCOIN_TESTNET"] then
      some (.str (transaction_id.getD "")) else none)
  (s3, rp)

/-- The request assembly of `ManagedBlockchainQuery.list_token_balances`
(`managed_blockchain_query.py`, lines 299–314): writes into the fresh
nested `tokenFilter`, a conditional fresh `ownerFilter`, and a
conditional `nextToken` write into the fresh `request_params`. -/
def ltb_assemble (s : Store) (network : String)
    (contract_address token_id owner_address next_token : Option String)
    (max_results : Int) : Store × Nat :=
  let (s1, tf) := alloc s (.dict [("network", .str network)])
  let (s2, rp) := alloc s1
    (.dict [("tokenFilter", .ref tf), ("maxResults", .intV max_results)])
  let s3 := condSetKey s2 tf "contractAddress"
    (if strTruthy contract_address then
      some (.str (contract_address.getD "")) else none)
  let s4 := condSetKey s3 tf "tokenId"
    (if strTruthy token_id then some (.str (token_id.getD "")) else none)
  let s5 := condAllocSetKey s4 rp "ownerFilter"
    (if strTruthy owner_address then
      some (.dict [("address", .str (owner_address.getD ""))]) else none)
  let s6 := condSetKey s5 rp "nextToken"
    (if strTruthy next_token then some (.str (next_token.getD "")) else none)
  (s6, rp)

/-- The request assembly of
`ManagedBlockchainQuery.list_transaction_events`
(`managed_blockchain_query.py`, lines 344–351): conditional scalar
writes into the fresh `request_params`. -/
def lte_assemble (s : Store) (network : String)
    (transaction_hash transaction_id next_token : Option String)
    (max_results : Int) : Store × Nat :=
  let (s1, rp) := alloc s
    (.dict [("network", .str network), ("maxResults", .intV max_results)])
  let s2 := condSetKey s1 rp "transactionHash"
    (if strTruthy transaction_hash then
      some (.str (transaction_hash.getD "")) else none)
  let s3 := condSetKey s2 rp "transactionId"
    (if strTruthy transaction_id then
      some (.str (transaction_id.getD "")) else none)
  let s4 := condSetKey s3 rp "nextToken"
    (if strTruthy next_token then some (.str (next_token.getD "")) else none)
  (s4, rp)

/-- The request assembly of `ManagedBlockchainQuery.list_transactions`
(`managed_blockchain_query.py`, lines 387–401): fresh `sort` and
`request_params` literals, conditional `fromBlockchainInstant` /
`toBlockchainInstant` literals (the times are ISO strings here),
`nextToken`, and the `confirmationStatusFilter` literal with its fresh
`["FINAL", "NONFINAL"]` list on `include_nonfinal`. -/
def ltx_assemble (s : Store) (address network : String)
    (from_time to_time next_token : Option String) (sort_order : String)
    (max_results : Int) (include_nonfinal : Bool) : Store × Nat :=
  let (s1, srt) := alloc s
    (.dict [("sortBy", .str "TRANSACTION_TIMESTAMP"),
            ("sortOrder", .str sort_order)])
  let (s2, rp) := alloc s1
    (.dict [("address", .str address), ("network", .str network),
            ("sort", .ref srt), ("maxResults", .intV max_results)])
  let s3 := condAllocSetKey s2 rp "fromBlockchainInstant"
    (if strTruthy from_time then
      some (.dict [("time", .str (from_time.getD ""))]) else none)
  let s4 := condAllocSetKey s3 rp "toBlockchainInstant"
    (if strTruthy to_time then
      some (.dict [("time", .str (to_time.getD ""))]) else none)
  let s5 := condSetKey s4 rp "nextToken"
    (if strTruthy next_token then some (.str (next_token.getD "")) else none)
  let s6 := condAllocListSetKey s5 rp "confirmationStatusFilter" "include"
    (if include_nonfinal then some [.str "FINAL", .str "NONFINAL"] else none)
  (s6, rp)

/-! ### The `paginate_*` assemblies of
`managed_blockchain_query/managed_blockchain_paginator.py` -/

/-- `paginate_list_asset_contracts` (lines 11–55): the `contractFilter`
and `PaginationConfig` literals, both fresh (`None` values stored
as-is). -/
def plac_assemble (s : Store)
    (network token_standard deployer_address : String)
    (max_items page_size : Option Nat) (starting_token : Option String) :
    Store × Nat × Nat :=
  let (s1, cf) := alloc s
    (.dict [("network", .str network), ("tokenStandard", .str token_standard),
            ("deployerAddress", .str deployer_address)])
  let (s2, pc) := alloc s1
    (.dict [("MaxItems", optNatV max_items), ("PageSize", optNatV page_size),
            ("StartingToken", optStrV starting_token)])
  (s2, cf, pc)

/-- `paginate_list_filtered_transaction_events` (lines 58–155): lines
94–111 are the same `request_params` / `timeFilter` / `voutFilter` /
`confirmationStatusFilter` code as `list_filtered_transaction_events`
(hence the shared step functions), followed by the fresh
`PaginationConfig` literal. -/
def plfte_assemble (s : Store) (network : String) (addrRef : Nat)
    (from_time to_time : Option Nat) (vout_spent : Option Bool)
    (confirmation_status : Option Nat) (sort_by sort_order : String)
    (max_items page_size : Option Nat) (starting_token : Option String) :
    Store × Nat × Nat :=
  let (s1, a1) := alloc s (.dict [("transactionEventToAddress", .ref addrRef)])
  let (s2, a2) := alloc s1
    (.dict [("sortBy", .str sort_by), ("sortOrder", .str sort_order)])
  let (s3, rp) := alloc s2
    (.dict [("network", .str network), ("addressIdentifierFilter", .ref a1),
            ("sort", .ref a2)])
  let s4 := lfteTimeFilter s3 rp from_time to_time
  let s5 := lfteVoutStep s4 rp vout_spent
  let s6 := lfteCsStep s5 rp confirmation_status
  let (s7, pc) := alloc s6
    (.dict [("MaxItems", optNatV max_items), ("PageSize", optNatV page_size),
            ("StartingToken", optStrV starting_token)])
  (s7, rp, pc)

/-- `paginate_list_token_balances` (lines 134–186): like
`list_token_balances` but with a fresh `PaginationConfig` literal in
place of the `nextToken` write. -/
def pltb_assemble (s : Store) (network : String)
    (contract_address token_id owner_address : Option String)
    (max_items page_size : Option Nat) (starting_token : Option String) :
    Store × Nat × Nat :=
  let (s1, tf) := alloc s (.dict [("network", .str network)])
  let (s2, rp) := alloc s1 (.dict [("tokenFilter", .ref tf)])
  let s3 := condSetKey s2 tf "contractAddress"
    (if strTruthy contract_address then
      some (.str (contract_address.getD "")) else none)
  let s4 := condSetKey s3 tf "tokenId"
    (if strTruthy token_id then some (.str (token_id.getD "")) else none)
  let s5 := condAllocSetKey s4 rp "ownerFilter"
    (if strTruthy owner_address then
      some (.dict [("address", .str (owner_address.getD ""))]) else none)
  let (s6, pc) := alloc s5
    (.dict [("MaxItems", optNatV max_items), ("PageSize", optNatV page_size),
            ("StartingToken", optStrV starting_token)])
  (s6, rp, pc)

/-- `paginate_list_transaction_events` (lines 194–243): conditional
scalar writes into the fresh `request_params`, then the fresh
`PaginationConfig` literal. -/
def plte_assemble (s : Store) (network : String)
    (transaction_hash transaction_id : Option String)
    (max_items page_size : Option Nat) (starting_token : Option String) :
    Store × Nat × Nat :=
  let (s1, rp) := alloc s (.dict [("network", .str network)])
  let s2 := condSetKey s1 rp "transactionHash"
    (if strTruthy transaction_hash then
      some (.str (transaction_hash.getD "")) else none)
  let s3 := condSetKey s2 rp "transactionId"
    (if strTruthy transaction_id then
      some (.str (transaction_id.getD "")) else none)
  let (s4, pc) := alloc s3
    (.dict [("MaxItems", optNatV max_items), ("PageSize", optNatV page_size),
            ("StartingToken", optStrV starting_token)])
  (s4, rp, pc)

/-- `paginate_list_transactions` (lines 250–313): like
`list_transactions` (the times are datetimes here) but with a fresh
`PaginationConfig` literal in place of the `nextToken` write. -/
def pltx_assemble (s : Store) (address network : String)
    (from_time to_time : Option Nat) (sort_order : String)
    (include_nonfinal : Bool) (max_items page_size : Option Nat)
    (starting_token : Option String) : Store × Nat × Nat :=
  let (s1, srt) := alloc s
    (.dict [("sortBy", .str "TRANSACTION_TIMESTAMP"),
            ("sortOrder", .str sort_order)])
  let (s2, rp) := alloc s1
    (.dict [("address", .str address), ("network", .str network),
            ("sort", .ref srt)])
  let s3 := condAllocSetKey s2 rp "fromBlockchainInstant"
    (from_time.map (fun t => .dict [("time", .timeV t)]))
  let s4 := condAllocSetKey s3 rp "toBlockchainInstant"
    (to_time.map (fun t => .dict [("time", .timeV t)]))
  let s5 := condAllocListSetKey s4 rp "confirmationStatusFilter" "include"
    (if include_nonfinal then some [.str "FINAL", .str "NONFINAL"] else none)
  let (s6, pc) := alloc s5
    (.dict [("MaxItems", optNatV max_items), ("PageSize", optNatV page_size),
            ("StartingToken", optStrV starting_token)])
  (s6, rp, pc)

/-- Two stores agree on every index below `n`. -/
def agreeBelow (n : Nat) (a b : Store) : Prop :=
  ∀ i, i < n → a[i]? = b[i]?

/-- `t` was obtained from `s` by allocations and writes into objects at
or beyond index `n`: it is at least as long as `n` and agrees with `s`
below `n`.  Composable along every assembly step. -/
def grows (n : Nat) (s t : Store) : Prop :=
  n ≤ t.length ∧ agreeBelow n t s

/-- A two-page accessors client for exercising the pagination loop:
page one carries items `[1, 2]` and token `"t1"`, page two carries
`[3]` and no token. -/
def accPagesW : Nat → ListResp Nat := fun i =>
  if i = 0 then ⟨some [1, 2], some "t1"⟩ else ⟨some [3], none⟩

def accClientW : ListAccessorsParams → Except BotoErr (ListResp Nat) :=
  fun params =>
    if params.nextToken = none then .ok (accPagesW 0) else .ok (accPagesW 1)

/-- A two-page members client, same shape as `accClientW`. -/
def memClientW : ListMembersParams → Except BotoErr (ListResp Nat) :=
  fun params =>
    if params.nextToken = none then .ok (accPagesW 0) else .ok (accPagesW 1)

/-- A two-page networks client, same shape as `accClientW`. -/
def netClientW : ListNetworksParams → Except BotoErr (ListResp Nat) :=
  fun params =>
    if params.nextToken = none then .ok (accPagesW 0) else .ok (accPagesW 1)

/-- A two-page invitations client, same shape as `accClientW`. -/
def invClientW : ListInvitationsParams → Except BotoErr (ListResp Nat) :=
  fun params =>
    if params.nextToken = none then .ok (accPagesW 0) else .ok (accPagesW 1)

/-- A two-page nodes client, same shape as `accClientW`. -/
def nodClientW : ListNodesParams → Except BotoErr (ListResp Nat) :=
  fun params =>
    if params.nextToken = none then .ok (accPagesW 0) else .ok (accPagesW 1)

/-- A two-page proposals client, same shape as `accClientW`. -/
def propClientW : ListProposalsParams → Except BotoErr (ListResp Nat) :=
  fun params =>
    if params.nextToken = none then .ok (accPagesW 0) else .ok (accPagesW 1)

/-- A two-page proposal-votes client, same shape as `accClientW`. -/
def pvClientW : ListProposalVotesParams → Except BotoErr (ListResp Nat) :=
  fun params =>
    if params.nextToken = none then .ok (accPagesW 0) else .ok (accPagesW 1)


/-! ## Shared lemmas -/

/-- Subscript assignment never changes the number of allocated objects. -/
theorem setKey_length (s : Store) (r : Nat) (k : String) (v : HVal) :
    (setKey s r k v).length = s.length := by
  unfold setKey
  split
  · exact List.length_set ..
  · rfl

theorem agreeBelow_refl (n : Nat) (a : Store) : agreeBelow n a a :=
  fun _ _ => rfl

theorem agreeBelow_trans {n : Nat} {a b c : Store}
    (h1 : agreeBelow n a b) (h2 : agreeBelow n b c) : agreeBelow n a c :=
  fun i hi => (h1 i hi).trans (h2 i hi)

/-- Allocation leaves every index of the original store unchanged. -/
theorem agreeBelow_snoc {s : Store} (o : HObj) {n : Nat} (h : n ≤ s.length) :
    agreeBelow n (s ++ [o]) s :=
  fun _ hi => List.getElem?_append_left (Nat.lt_of_lt_of_le hi h)

/-- A subscript assignment to an index at or beyond `n` leaves the
first `n` objects unchanged. -/
theorem agreeBelow_setKey {s : Store} {r : Nat} (k : String) (v : HVal)
    {n : Nat} (h : n ≤ r) : agreeBelow n (setKey s r k v) s := by
  intro i hi
  unfold setKey
  split
  · exact List.getElem?_set_ne (by omega)
  · rfl

/-- Agreement below `n` gives equality of the length-`n` prefixes. -/
theorem take_eq_of_agreeBelow {a b : Store} {n : Nat}
    (h : agreeBelow n a b) : a.take n = b.take n := by
  apply List.ext_getElem?
  intro i
  by_cases hi : i < n
  · rw [List.getElem?_take_of_lt hi, List.getElem?_take_of_lt hi]
    exact h i hi
  · rw [List.getElem?_eq_none, List.getElem?_eq_none] <;>
      simp [List.length_take] <;> omega

/-- The `timeFilter` step only grows the store. -/
theorem lfteTimeFilter_length (s : Store) (r : Nat) (ft tt' : Option Nat) :
    s.length ≤ (lfteTimeFilter s r ft tt').length := by
  unfold lfteTimeFilter
  split
  · cases ft <;> cases tt' <;>
      simp [alloc, setKey_length, List.length_append] <;> omega
  · exact Nat.le_refl _

/-- The `timeFilter` step leaves the first `n` objects unchanged when
they predate the request object at `r`. -/
theorem lfteTimeFilter_agree {s : Store} {r : Nat} (ft tt' : Option Nat)
    {n : Nat} (h1 : n ≤ s.length) (h2 : n ≤ r) :
    agreeBelow n (lfteTimeFilter s r ft tt') s := by
  unfold lfteTimeFilter
  split
  · cases ft <;> cases tt' <;> simp only [alloc]
    · exact agreeBelow_trans (agreeBelow_setKey _ _ h2) (agreeBelow_snoc _ h1)
    · refine agreeBelow_trans (agreeBelow_setKey _ _ ?_)
        (agreeBelow_trans (agreeBelow_snoc _ ?_)
          (agreeBelow_trans (agreeBelow_setKey _ _ h2) (agreeBelow_snoc _ h1)))
      · omega
      · rw [setKey_length]; simp; omega
    · refine agreeBelow_trans (agreeBelow_setKey _ _ ?_)
        (agreeBelow_trans (agreeBelow_snoc _ ?_)
          (agreeBelow_trans (agreeBelow_setKey _ _ h2) (agreeBelow_snoc _ h1)))
      · omega
      · rw [setKey_length]; simp; omega
    · refine agreeBelow_trans (agreeBelow_setKey _ _ ?_)
        (agreeBelow_trans (agreeBelow_snoc _ ?_)
          (agreeBelow_trans (agreeBelow_setKey _ _ ?_)
            (agreeBelow_trans (agreeBelow_snoc _ ?_)
              (agreeBelow_trans (agreeBelow_setKey _ _ h2) (agreeBelow_snoc _ h1)))))
      · omega
      · rw [setKey_length]; simp [setKey_length]; omega
      · omega
      · rw [setKey_length]; simp; omega
  · exact agreeBelow_refl _ _

/-- The accumulation loop visits pages `j, j+1, …, j+d` of a page
sequence `p` that the fetch function realises along the token chain,
and returns the accumulator extended with their item lists, provided
the fuel covers the `d+1` iterations. -/
theorem paginateLoop_run (fetch : Option String → Except PyErr (ListResp α))
    (p : Nat → ListResp α) :
    ∀ (d j : Nat),
      (∀ i, j ≤ i → i < j + d → strTruthy (p i).nextToken = true) →
      strTruthy (p (j + d)).nextToken = false →
      (∀ i, j ≤ i → i < j + d → fetch (p i).nextToken = .ok (p (i + 1))) →
      ∀ tok, fetch tok = .ok (p j) →
      ∀ fuel, d + 1 ≤ fuel → ∀ acc,
      paginateLoop fetch fuel tok acc = some (.ok (acc ++ itemsFrom p j d)) := by
  intro d
  induction d with
  | zero =>
    intro j _ hstop _ tok htok fuel hfuel acc
    match fuel, hfuel with
    | fuel + 1, _ =>
      simp only [paginateLoop, htok]
      rw [if_neg]
      · simp [itemsFrom]
      · simp only [Nat.add_zero] at hstop
        simp [hstop]
  | succ d ih =>
    intro j htrue hstop hstep tok htok fuel hfuel acc
    match fuel, hfuel with
    | fuel + 1, hfuel =>
      simp only [paginateLoop, htok]
      rw [if_pos]
      · rw [ih (j + 1)
          (fun i h1 h2 => htrue i (by omega) (by omega))
          (by have := hstop; rw [show j + 1 + d = j + (d + 1) by omega]; exact this)
          (fun i h1 h2 => hstep i (by omega) (by omega))
          ((p j).nextToken)
          (hstep j (Nat.le_refl j) (by omega))
          fuel (by omega)]
        simp [itemsFrom, List.append_assoc]
      · exact htrue j (Nat.le_refl j) (by omega)

/-! ## Claim theorems -/

/-- C1 counterexample: the claim "for every wrapper method … the
exception is never propagated to the caller" is false.
`ManagedBlockchain.get_transaction` (`managed_blockchain.py`, lines
11–17) wraps its client call in no `try`/`except`: when the call raises
the throttling service exception, the method propagates it unchanged. -/
theorem C1_counterexample_get_transaction_propagates :
    mb_get_transaction (α := Nat)
      (fun _ => .error (.service .throttling)) "0xabc" "ETHEREUM_MAINNET"
      = .error (.boto (.service .throttling)) := rfl

/-- C1 (amended): the catch-and-sentinel pattern holds method by
method, not universally.  A guarded wrapper converts exactly the
service exceptions enumerated in its `except` clauses into that
method's own sentinel — `None` for
`ManagedBlockchainAccessors.create_accessor` and
`ManagedBlockchainNetwork.get_network`, but `False` for
`ManagedBlockchainNetwork.delete_network` — while a service exception
outside the enumerated classes propagates even from a guarded method
(`ResourceNotFoundException` in `create_accessor`), and the unguarded
wrappers `ManagedBlockchain.get_transaction`,
`ManagedBlockchain.list_networks`,
`ManagedBlockchainQueryTransactions.get_transaction` and
`ManagedBlockchainQueryTransactions.list_transactions` propagate every
exception of the underlying call to the caller. -/
theorem C1_error_handling_amended :
    (∀ (α : Type) (e : RemoteErr), e ∈ createAccessorHandled →
      ∀ (uuidToken network_type : String)
        (tags : Option (List (String × String))),
        create_accessor (α := α) (fun _ => .error (.service e))
          uuidToken network_type tags = .ok none) ∧
    (∀ (α : Type) (uuidToken network_type : String)
      (tags : Option (List (String × String))),
      create_accessor (α := α) (fun _ => .error (.service .resourceNotFound))
        uuidToken network_type tags
        = .error (.boto (.service .resourceNotFound))) ∧
    (∀ (β : Type) (e : RemoteErr), e ∈ getNetworkHandled →
      ∀ (network_id : String),
        get_network (β := β) (fun _ => .error (.service e)) network_id
          = .ok none) ∧
    (∀ (α : Type) (e : RemoteErr), e ∈ deleteNetworkHandled →
      ∀ (network_id : String),
        delete_network (α := α) (fun _ => .error (.service e)) network_id
          = .ok false) ∧
    (∀ (α : Type) (e : BotoErr) (h n : String),
      mb_get_transaction (α := α) (fun _ => .error e) h n = .error (.boto e)) ∧
    (∀ (α : Type) (e : BotoErr),
      mb_list_networks (α := α) (fun _ => .error e) = .error (.boto e)) ∧
    (∀ (α : Type) (e : BotoErr) (h n : String),
      qt_get_transaction (α := α) (fun _ => .error e) h n = .error (.boto e)) ∧
    (∀ (α : Type) (e : BotoErr) (a n : String),
      qt_list_transactions (α := α) (fun _ => .error e) a n = .error (.boto e)) := by
  refine ⟨?_, ?_, ?_, ?_, ?_, ?_, ?_, ?_⟩
  · intro α e he uuidToken network_type tags
    simp [create_accessor, he]
  · intro α uuidToken network_type tags
    rfl
  · intro β e he network_id
    simp [get_network, he]
  · intro α e he network_id
    simp [delete_network, he]
  · intro α e h n
    cases e <;> rfl
  · intro α e
    cases e <;> rfl
  · intro α e h n
    cases e <;> rfl
  · intro α e a n
    cases e <;> rfl

/-- C1 witness: the amended theorem applied at concrete inputs, each
membership hypothesis discharged by evaluation — the `None` sentinel of
`create_accessor` and `get_network` and the `False` sentinel of
`delete_network`. -/
theorem C1_error_handling_amended_witness :
    create_accessor (α := Nat) (fun _ => .error (.service .throttling))
      "token-0" "ETHEREUM" none = .ok none ∧
    get_network (β := Nat) (fun _ => .error (.service .accessDenied)) "n-1"
      = .ok none ∧
    delete_network (α := Nat) (fun _ => .error (.service .throttling)) "n-1"
      = .ok false :=
  ⟨C1_error_handling_amended.1 Nat .throttling (by decide)
      "token-0" "ETHEREUM" none,
   C1_error_handling_amended.2.2.1 Nat .accessDenied (by decide) "n-1",
   C1_error_handling_amended.2.2.2.1 Nat .throttling (by decide) "n-1"⟩

/-- C2: the claim "constructing an instance succeeds without raising …
in particular `ManagedBlockchainAdmin()` returns an instance whose
client field is the managedblockchain client" fails on the code:
`managed_blockchain_admin.py` contains no import statement, so
`boto3.client("managedblockchain")` in its `__init__` raises
`NameError` — while a class whose module does import `boto3`
(`ManagedBlockchainAccessors`) constructs fine. -/
theorem C2_admin_init_name_error :
    ManagedBlockchainAdmin_init = .error (.nameError "boto3") ∧
    ManagedBlockchainAccessors_init = .ok ⟨"managedblockchain"⟩ := by
  constructor <;> rfl

/-- C3: the claim says `paginate_operation` returns the concatenation
of each page's result list (the `'Networks'` entries for
`'list_networks'`).  The code instead reads
`page.get(operation_name.capitalize(), [])`, and
`"list_networks".capitalize()` is `"List_networks"`, a key no remote
page carries — so pages holding `'Networks'` entries contribute
nothing and the method returns `[]`, against the claim (and against
its own docstring "A list of results from all pages"). -/
theorem C3_paginate_operation_capitalize_mismatch :
    pyCapitalize "list_networks" = "List_networks" ∧
    paginate_operation (fun _ => true)
      [[("Networks", [1, 2])], [("Networks", [3])]] "list_networks"
      = ([] : List Nat) ∧
    paginate_operation (fun _ => false)
      [[("Networks", [1, 2])], [("Networks", [3])]] "list_networks"
      = ([] : List Nat) := by
  refine ⟨rfl, ?_, rfl⟩
  simp [paginate_operation, dictGetD, pyCapitalize, List.find?]

/-- C4: the claim says `create_member` forwards the assembled
`MemberConfiguration` to the remote operation and returns the response.
The code cannot: `members.py` never imports `uuid`, so evaluating
`str(uuid.uuid4())` — the first argument of the call — raises
`NameError`, which none of the `except` clauses (all service
exceptions) catch.  Every invocation therefore propagates `NameError`
regardless of the client, contradicting the repository's own
`test_create_member`. -/
theorem C4_create_member_name_error :
    ∀ (α : Type) (client : CreateMemberKwargs → Except BotoErr α)
      (uuidToken invitation_id network_id member_name admin_username
        admin_password : String),
      create_member client uuidToken invitation_id network_id member_name
          admin_username admin_password none none none
        = .error (.nameError "uuid") := by
  intro α client uuidToken invitation_id network_id member_name au ap
  rfl

/-- C5: each of the seven `get_all_*` accumulation loops, given that
the token chain realised by its single-page wrapper reaches a page
whose `NextToken` is absent or empty after `k` truthy tokens,
terminates (within any fuel covering the `k+1` iterations) and returns
the in-order concatenation of the item lists of pages `0…k`, stopping
exactly at page `k`: `get_all_accessors`, `get_all_members`,
`get_all_networks`, `get_all_invitations`, `get_all_nodes`,
`get_all_proposals` and `get_all_proposal_votes`. -/
theorem C5_get_all_pagination :
    (∀ (α : Type) (client : ListAccessorsParams → Except BotoErr (ListResp α))
      (network_type : Option String) (p : Nat → ListResp α) (k fuel : Nat),
      list_accessors client none none network_type = .ok (p 0) →
      (∀ i, i < k → list_accessors client none (p i).nextToken network_type
        = .ok (p (i + 1))) →
      (∀ i, i < k → strTruthy (p i).nextToken = true) →
      strTruthy (p k).nextToken = false →
      k + 1 ≤ fuel →
      get_all_accessors client network_type fuel
        = some (.ok (itemsFrom p 0 k))) ∧
    (∀ (α : Type) (client : ListMembersParams → Except BotoErr (ListResp α))
      (network_id : String) (p : Nat → ListResp α) (k fuel : Nat),
      list_members client network_id none none none none none = .ok (p 0) →
      (∀ i, i < k → list_members client network_id none none none none
        (p i).nextToken = .ok (p (i + 1))) →
      (∀ i, i < k → strTruthy (p i).nextToken = true) →
      strTruthy (p k).nextToken = false →
      k + 1 ≤ fuel →
      get_all_members client network_id fuel
        = some (.ok (itemsFrom p 0 k))) ∧
    (∀ (α : Type) (client : ListNetworksParams → Except BotoErr (ListResp α))
      (p : Nat → ListResp α) (k fuel : Nat),
      list_networks client none none none none none = .ok (p 0) →
      (∀ i, i < k → list_networks client none none none none (p i).nextToken
        = .ok (p (i + 1))) →
      (∀ i, i < k → strTruthy (p i).nextToken = true) →
      strTruthy (p k).nextToken = false →
      k + 1 ≤ fuel →
      get_all_networks client fuel = some (.ok (itemsFrom p 0 k))) ∧
    (∀ (α : Type)
      (client : ListInvitationsParams → Except BotoErr (ListResp α))
      (p : Nat → ListResp α) (k fuel : Nat),
      list_invitations client none none = .ok (p 0) →
      (∀ i, i < k → list_invitations client none (p i).nextToken
        = .ok (p (i + 1))) →
      (∀ i, i < k → strTruthy (p i).nextToken = true) →
      strTruthy (p k).nextToken = false →
      k + 1 ≤ fuel →
      get_all_invitations client fuel = some (.ok (itemsFrom p 0 k))) ∧
    (∀ (α : Type) (client : ListNodesParams → Except BotoErr (ListResp α))
      (network_id : String) (member_id : Option String)
      (p : Nat → ListResp α) (k fuel : Nat),
      list_nodes client network_id member_id none none none = .ok (p 0) →
      (∀ i, i < k → list_nodes client network_id member_id none none
        (p i).nextToken = .ok (p (i + 1))) →
      (∀ i, i < k → strTruthy (p i).nextToken = true) →
      strTruthy (p k).nextToken = false →
      k + 1 ≤ fuel →
      get_all_nodes client network_id member_id fuel
        = some (.ok (itemsFrom p 0 k))) ∧
    (∀ (α : Type) (client : ListProposalsParams → Except BotoErr (ListResp α))
      (network_id : String) (p : Nat → ListResp α) (k fuel : Nat),
      list_proposals client network_id none none = .ok (p 0) →
      (∀ i, i < k → list_proposals client network_id none (p i).nextToken
        = .ok (p (i + 1))) →
      (∀ i, i < k → strTruthy (p i).nextToken = true) →
      strTruthy (p k).nextToken = false →
      k + 1 ≤ fuel →
      get_all_proposals client network_id fuel
        = some (.ok (itemsFrom p 0 k))) ∧
    (∀ (α : Type)
      (client : ListProposalVotesParams → Except BotoErr (ListResp α))
      (network_id proposal_id : String) (p : Nat → ListResp α) (k fuel : Nat),
      list_proposal_votes client network_id proposal_id none none = .ok (p 0) →
      (∀ i, i < k → list_proposal_votes client network_id proposal_id none
        (p i).nextToken = .ok (p (i + 1))) →
      (∀ i, i < k → strTruthy (p i).nextToken = true) →
      strTruthy (p k).nextToken = false →
      k + 1 ≤ fuel →
      get_all_proposal_votes client network_id proposal_id fuel
        = some (.ok (itemsFrom p 0 k))) := by
  refine ⟨?_, ?_, ?_, ?_, ?_, ?_, ?_⟩
  · intro α client network_type p k fuel h0 hstep htrue hstop hfuel
    have := paginateLoop_run
      (fun tok => list_accessors client none tok network_type) p k 0
      (fun i _ h2 => htrue i (by omega))
      (by simpa using hstop)
      (fun i _ h2 => hstep i (by omega))
      none h0 fuel (by omega) []
    simpa [get_all_accessors] using this
  · intro α client network_id p k fuel h0 hstep htrue hstop hfuel
    have := paginateLoop_run
      (fun tok => list_members client network_id none none none none tok) p k 0
      (fun i _ h2 => htrue i (by omega))
      (by simpa using hstop)
      (fun i _ h2 => hstep i (by omega))
      none h0 fuel (by omega) []
    simpa [get_all_members] using this
  · intro α client p k fuel h0 hstep htrue hstop hfuel
    have := paginateLoop_run
      (fun tok => list_networks client none none none none tok) p k 0
      (fun i _ h2 => htrue i (by omega))
      (by simpa using hstop)
      (fun i _ h2 => hstep i (by omega))
      none h0 fuel (by omega) []
    simpa [get_all_networks] using this
  · intro α client p k fuel h0 hstep htrue hstop hfuel
    have := paginateLoop_run
      (fun tok => list_invitations client none tok) p k 0
      (fun i _ h2 => htrue i (by omega))
      (by simpa using hstop)
      (fun i _ h2 => hstep i (by omega))
      none h0 fuel (by omega) []
    simpa [get_all_invitations] using this
  · intro α client network_id member_id p k fuel h0 hstep htrue hstop hfuel
    have := paginateLoop_run
      (fun tok => list_nodes client network_id member_id none none tok) p k 0
      (fun i _ h2 => htrue i (by omega))
      (by simpa using hstop)
      (fun i _ h2 => hstep i (by omega))
      none h0 fuel (by omega) []
    simpa [get_all_nodes] using this
  · intro α client network_id p k fuel h0 hstep htrue hstop hfuel
    have := paginateLoop_run
      (fun tok => list_proposals client network_id none tok) p k 0
      (fun i _ h2 => htrue i (by omega))
      (by simpa using hstop)
      (fun i _ h2 => hstep i (by omega))
      none h0 fuel (by omega) []
    simpa [get_all_proposals] using this
  · intro α client network_id proposal_id p k fuel h0 hstep htrue hstop hfuel
    have := paginateLoop_run
      (fun tok => list_proposal_votes client network_id proposal_id none tok)
      p k 0
      (fun i _ h2 => htrue i (by omega))
      (by simpa using hstop)
      (fun i _ h2 => hstep i (by omega))
      none h0 fuel (by omega) []
    simpa [get_all_proposal_votes] using this

/-- C5 witness: the pagination theorem applied to concrete two-page
clients for all seven loops, every hypothesis discharged by
evaluation. -/
theorem C5_get_all_pagination_witness :
    get_all_accessors accClientW none 2 = some (.ok [1, 2, 3]) ∧
    get_all_members memClientW "n-1" 2 = some (.ok [1, 2, 3]) ∧
    get_all_networks netClientW 2 = some (.ok [1, 2, 3]) ∧
    get_all_invitations invClientW 2 = some (.ok [1, 2, 3]) ∧
    get_all_nodes nodClientW "n-1" none 2 = some (.ok [1, 2, 3]) ∧
    get_all_proposals propClientW "n-1" 2 = some (.ok [1, 2, 3]) ∧
    get_all_proposal_votes pvClientW "n-1" "p-1" 2 = some (.ok [1, 2, 3]) := by
  refine ⟨?_, ?_, ?_, ?_, ?_, ?_, ?_⟩
  · have h := C5_get_all_pagination.1 Nat accClientW none accPagesW 1 2
      rfl
      (by intro i hi; have hz : i = 0 := Nat.lt_one_iff.mp hi; subst hz; rfl)
      (by intro i hi; have hz : i = 0 := Nat.lt_one_iff.mp hi; subst hz; rfl)
      rfl (by omega)
    simpa [itemsFrom, accPagesW] using h
  · have h := C5_get_all_pagination.2.1 Nat memClientW "n-1" accPagesW 1 2
      rfl
      (by intro i hi; have hz : i = 0 := Nat.lt_one_iff.mp hi; subst hz; rfl)
      (by intro i hi; have hz : i = 0 := Nat.lt_one_iff.mp hi; subst hz; rfl)
      rfl (by omega)
    simpa [itemsFrom, accPagesW] using h
  · have h := C5_get_all_pagination.2.2.1 Nat netClientW accPagesW 1 2
      rfl
      (by intro i hi; have hz : i = 0 := Nat.lt_one_iff.mp hi; subst hz; rfl)
      (by intro i hi; have hz : i = 0 := Nat.lt_one_iff.mp hi; subst hz; rfl)
      rfl (by omega)
    simpa [itemsFrom, accPagesW] using h
  · have h := C5_get_all_pagination.2.2.2.1 Nat invClientW accPagesW 1 2
      rfl
      (by intro i hi; have hz : i = 0 := Nat.lt_one_iff.mp hi; subst hz; rfl)
      (by intro i hi; have hz : i = 0 := Nat.lt_one_iff.mp hi; subst hz; rfl)
      rfl (by omega)
    simpa [itemsFrom, accPagesW] using h
  · have h := C5_get_all_pagination.2.2.2.2.1 Nat nodClientW "n-1" none
      accPagesW 1 2
      rfl
      (by intro i hi; have hz : i = 0 := Nat.lt_one_iff.mp hi; subst hz; rfl)
      (by intro i hi; have hz : i = 0 := Nat.lt_one_iff.mp hi; subst hz; rfl)
      rfl (by omega)
    simpa [itemsFrom, accPagesW] using h
  · have h := C5_get_all_pagination.2.2.2.2.2.1 Nat propClientW "n-1"
      accPagesW 1 2
      rfl
      (by intro i hi; have hz : i = 0 := Nat.lt_one_iff.mp hi; subst hz; rfl)
      (by intro i hi; have hz : i = 0 := Nat.lt_one_iff.mp hi; subst hz; rfl)
      rfl (by omega)
    simpa [itemsFrom, accPagesW] using h
  · have h := C5_get_all_pagination.2.2.2.2.2.2 Nat pvClientW "n-1" "p-1"
      accPagesW 1 2
      rfl
      (by intro i hi; have hz : i = 0 := Nat.lt_one_iff.mp hi; subst hz; rfl)
      (by intro i hi; have hz : i = 0 := Nat.lt_one_iff.mp hi; subst hz; rfl)
      rfl (by omega)
    simpa [itemsFrom, accPagesW] using h

/-- C6: `get_token_balance` builds a request whose `tokenIdentifier`
holds `network` always, `contractAddress` exactly when
`contract_address` is truthy (with that value), `tokenId` exactly when
`token_id` is truthy, whose `ownerIdentifier.address` is
`owner_address`, and which carries `atBlockchainInstant = {"time": t}`
exactly when `timestamp` is provided — and on success the method
returns the remote response unchanged. -/
theorem C6_get_token_balance_request :
    ∀ (τ β : Type) (network owner_address : String)
      (contract_address token_id : Option String) (timestamp : Option τ),
      (getTokenBalanceRequest network owner_address contract_address token_id
        timestamp).tokenIdentifier.network = network ∧
      (getTokenBalanceRequest network owner_address contract_address token_id
        timestamp).tokenIdentifier.contractAddress
        = (if strTruthy contract_address then contract_address else none) ∧
      (getTokenBalanceRequest network owner_address contract_address token_id
        timestamp).tokenIdentifier.tokenId
        = (if strTruthy token_id then token_id else none) ∧
      (getTokenBalanceRequest network owner_address contract_address token_id
        timestamp).ownerIdentifier.address = owner_address ∧
      (getTokenBalanceRequest network owner_address contract_address token_id
        timestamp).atBlockchainInstant = timestamp.map (fun t => ⟨t⟩) ∧
      (∀ (client : GetTokenBalanceReq τ → Except BotoErr (List (String × β)))
        (r : List (String × β)),
        client (getTokenBalanceRequest network owner_address contract_address
          token_id timestamp) = .ok r →
        get_token_balance client network owner_address contract_address
          token_id timestamp = .ok r) := by
  intro τ β network owner_address contract_address token_id timestamp
  refine ⟨rfl, rfl, rfl, rfl, rfl, ?_⟩
  intro client r hr
  simp [get_token_balance, hr]

/-- C6 witness: the request theorem applied at a concrete input, with
the success hypothesis discharged by a constant client. -/
theorem C6_get_token_balance_request_witness :
    get_token_balance (τ := Nat) (fun _ => .ok [("balance", "7")])
      "ETHEREUM_MAINNET" "0xowner" (some "0xc0ffee") none (some 5)
      = .ok [("balance", "7")] :=
  (C6_get_token_balance_request Nat String "ETHEREUM_MAINNET" "0xowner"
    (some "0xc0ffee") none (some 5)).2.2.2.2.2
    (fun _ => .ok [("balance", "7")]) [("balance", "7")] rfl

/-- C7: each single-page list wrapper returns the client response
unchanged on success and the empty dictionary when the underlying call
raises a `BotoCoreError`, for `list_accessors`, `list_members`,
`list_networks`, `list_invitations`, `list_proposals`,
`list_proposal_votes` and `list_nodes`. -/
theorem C7_list_wrappers_botocore :
    (∀ (α : Type) (mr : Option Nat) (nt nty : Option String) (r : ListResp α),
      list_accessors (fun _ => .ok r) mr nt nty = .ok r ∧
      list_accessors (α := α) (fun _ => .error .botoCore) mr nt nty
        = .ok emptyResp) ∧
    (∀ (α : Type) (nid : String) (nm st : Option String) (io : Option Bool)
      (mr : Option Nat) (nt : Option String) (r : ListResp α),
      list_members (fun _ => .ok r) nid nm st io mr nt = .ok r ∧
      list_members (α := α) (fun _ => .error .botoCore) nid nm st io mr nt
        = .ok emptyResp) ∧
    (∀ (α : Type) (nm fw st : Option String) (mr : Option Nat)
      (nt : Option String) (r : ListResp α),
      list_networks (fun _ => .ok r) nm fw st mr nt = .ok r ∧
      list_networks (α := α) (fun _ => .error .botoCore) nm fw st mr nt
        = .ok emptyResp) ∧
    (∀ (α : Type) (mr : Option Nat) (nt : Option String) (r : ListResp α),
      list_invitations (fun _ => .ok r) mr nt = .ok r ∧
      list_invitations (α := α) (fun _ => .error .botoCore) mr nt
        = .ok emptyResp) ∧
    (∀ (α : Type) (nid : String) (mr : Option Nat) (nt : Option String)
      (r : ListResp α),
      list_proposals (fun _ => .ok r) nid mr nt = .ok r ∧
      list_proposals (α := α) (fun _ => .error .botoCore) nid mr nt
        = .ok emptyResp) ∧
    (∀ (α : Type) (nid pid : String) (mr : Option Nat) (nt : Option String)
      (r : ListResp α),
      list_proposal_votes (fun _ => .ok r) nid pid mr nt = .ok r ∧
      list_proposal_votes (α := α) (fun _ => .error .botoCore) nid pid mr nt
        = .ok emptyResp) ∧
    (∀ (α : Type) (nid : String) (mid st : Option String) (mr : Option Nat)
      (nt : Option String) (r : ListResp α),
      list_nodes (fun _ => .ok r) nid mid st mr nt = .ok r ∧
      list_nodes (α := α) (fun _ => .error .botoCore) nid mid st mr nt
        = .ok emptyResp) := by
  refine ⟨?_, ?_, ?_, ?_, ?_, ?_, ?_⟩ <;>
    intros <;> exact ⟨rfl, rfl⟩

/-! Frame lemmas for the assembly steps of
`list_filtered_transaction_events`. -/

theorem lfteVoutStep_agree {s : Store} {r : Nat} (vs : Option Bool)
    {n : Nat} (h2 : n ≤ r) (h1 : n ≤ s.length) :
    agreeBelow n (lfteVoutStep s r vs) s := by
  cases vs with
  | some b =>
    exact agreeBelow_trans (agreeBelow_setKey _ _ h2) (agreeBelow_snoc _ h1)
  | none => exact agreeBelow_refl _ _

theorem lfteVoutStep_length (s : Store) (r : Nat) (vs : Option Bool) :
    s.length ≤ (lfteVoutStep s r vs).length := by
  cases vs <;> simp [lfteVoutStep, alloc, setKey_length]

theorem lfteCsStep_agree {s : Store} {r : Nat} (cs : Option Nat)
    {n : Nat} (h2 : n ≤ r) (h1 : n ≤ s.length) :
    agreeBelow n (lfteCsStep s r cs) s := by
  unfold lfteCsStep
  split
  · exact agreeBelow_trans (agreeBelow_setKey _ _ h2) (agreeBelow_snoc _ h1)
  · exact agreeBelow_refl _ _

theorem lfteNtStep_agree {s : Store} {r : Nat} (nt : Option String)
    {n : Nat} (h : n ≤ r) : agreeBelow n (lfteNtStep s r nt) s := by
  unfold lfteNtStep
  split
  · exact agreeBelow_setKey _ _ h
  · exact agreeBelow_refl _ _

theorem lfteCsStep_length (s : Store) (r : Nat) (cs : Option Nat) :
    s.length ≤ (lfteCsStep s r cs).length := by
  unfold lfteCsStep
  split <;> simp [alloc, setKey_length]

theorem lfteNtStep_length (s : Store) (r : Nat) (nt : Option String) :
    s.length ≤ (lfteNtStep s r nt).length := by
  unfold lfteNtStep
  split <;> simp [setKey_length]

theorem condSetKey_length (s : Store) (r : Nat) (k : String)
    (v : Option HVal) : (condSetKey s r k v).length = s.length := by
  cases v <;> simp [condSetKey, setKey_length]

/-! One `grows` lemma per assembly step: every assembly below is a
composition of these, so each frame proof is a single chain. -/

theorem grows_start (s : Store) : grows s.length s s :=
  ⟨Nat.le_refl _, agreeBelow_refl _ _⟩

theorem grows_alloc {n : Nat} {s t : Store} (o : HObj) (h : grows n s t) :
    grows n s (t ++ [o]) :=
  ⟨Nat.le_trans h.1 (by simp),
   agreeBelow_trans (agreeBelow_snoc o h.1) h.2⟩

theorem grows_setKey {n : Nat} {s t : Store} {r : Nat} (k : String)
    (v : HVal) (hr : n ≤ r) (h : grows n s t) :
    grows n s (setKey t r k v) :=
  ⟨by rw [setKey_length]; exact h.1,
   agreeBelow_trans (agreeBelow_setKey k v hr) h.2⟩

theorem grows_condSetKey {n : Nat} {s t : Store} {r : Nat} (k : String)
    (v : Option HVal) (hr : n ≤ r) (h : grows n s t) :
    grows n s (condSetKey t r k v) := by
  cases v with
  | some v => exact grows_setKey k v hr h
  | none => exact h

theorem grows_condAllocSetKey {n : Nat} {s t : Store} {r : Nat}
    (k : String) (o : Option HObj) (hr : n ≤ r) (h : grows n s t) :
    grows n s (condAllocSetKey t r k o) := by
  cases o with
  | some o => exact grows_setKey _ _ hr (grows_alloc o h)
  | none => exact h

theorem grows_condAllocListSetKey {n : Nat} {s t : Store} {r : Nat}
    (k k2 : String) (o : Option (List HVal)) (hr : n ≤ r)
    (h : grows n s t) : grows n s (condAllocListSetKey t r k k2 o) := by
  cases o with
  | some items => exact grows_setKey _ _ hr (grows_alloc _ (grows_alloc _ h))
  | none => exact h

theorem grows_tagsOrEmpty {n : Nat} {s t : Store} (tags : Option Nat)
    (h : grows n s t) : grows n s (tagsOrEmptyHeap t tags).1 := by
  unfold tagsOrEmptyHeap
  split
  · exact h
  · exact grows_alloc _ h

theorem grows_applyWrites {n : Nat} {s : Store} {r : Nat}
    (writes : List (String × Option HVal)) (hr : n ≤ r) :
    ∀ {t : Store}, grows n s t → grows n s (applyWrites r writes t) := by
  induction writes with
  | nil => intro t h; exact h
  | cons kv rest ih =>
    intro t h
    rcases kv with ⟨k, v⟩
    cases v with
    | some v => exact ih (grows_setKey k v hr h)
    | none => exact ih h

theorem grows_paramsPattern {n : Nat} {s t : Store}
    (init : List (String × HVal)) (writes : List (String × Option HVal))
    (h : grows n s t) : grows n s (paramsPattern t init writes).1 :=
  grows_applyWrites writes h.1 (grows_alloc _ h)

theorem grows_allocDictsEach {n : Nat} {s : Store} (key : String) :
    ∀ (vs : List HVal) {t : Store}, grows n s t →
      grows n s (allocDictsEach key vs t).1 := by
  intro vs
  induction vs with
  | nil => intro t h; exact h
  | cons v rest ih => intro t h; exact ih (grows_alloc _ h)

theorem grows_condComprehension {n : Nat} {s t : Store} {r : Nat}
    (k key : String) (src : Option Nat) (hr : n ≤ r) (h : grows n s t) :
    grows n s (condComprehensionSetKey t r k key src) := by
  unfold condComprehensionSetKey
  split
  · exact grows_setKey _ _ hr
      (grows_alloc _ (grows_allocDictsEach key _ h))
  · exact h

theorem grows_timeFilter {n : Nat} {s t : Store} {r : Nat}
    (ft tt' : Option Nat) (hr : n ≤ r) (h : grows n s t) :
    grows n s (lfteTimeFilter t r ft tt') :=
  ⟨Nat.le_trans h.1 (lfteTimeFilter_length t r ft tt'),
   agreeBelow_trans (lfteTimeFilter_agree ft tt' h.1 hr) h.2⟩

theorem grows_voutStep {n : Nat} {s t : Store} {r : Nat}
    (vs : Option Bool) (hr : n ≤ r) (h : grows n s t) :
    grows n s (lfteVoutStep t r vs) :=
  ⟨Nat.le_trans h.1 (lfteVoutStep_length t r vs),
   agreeBelow_trans (lfteVoutStep_agree vs hr h.1) h.2⟩

theorem grows_csStep {n : Nat} {s t : Store} {r : Nat}
    (cs : Option Nat) (hr : n ≤ r) (h : grows n s t) :
    grows n s (lfteCsStep t r cs) :=
  ⟨Nat.le_trans h.1 (lfteCsStep_length t r cs),
   agreeBelow_trans (lfteCsStep_agree cs hr h.1) h.2⟩

theorem grows_ntStep {n : Nat} {s t : Store} {r : Nat}
    (nt : Option String) (hr : n ≤ r) (h : grows n s t) :
    grows n s (lfteNtStep t r nt) :=
  ⟨Nat.le_trans h.1 (lfteNtStep_length t r nt),
   agreeBelow_trans (lfteNtStep_agree nt hr) h.2⟩

/-- The frame property itself: a store grown from `s` restores `s` on
the initial indices. -/
theorem grows_take {s t : Store} (h : grows s.length s t) :
    t.take s.length = s := by
  have := take_eq_of_agreeBelow h.2
  rwa [List.take_length] at this

/-- C8: no wrapper method mutates a caller-supplied collection.  Every
assembly that touches a caller-supplied dictionary or list, and every
subscript-assignment site in the repository, is modelled over the
explicit store; in each one, all objects allocated before the call are
untouched afterwards (the final store restricted to the initial indices
is the initial store), every write lands in a dictionary freshly
allocated in the same call, and the request dictionary of
`list_filtered_transaction_events` postdates the initial store.
Covered: `list_filtered_transaction_events`, `create_accessor`,
`batch_get_token_balance`, `create_network` (voting policy, member
configuration, tags), `create_member`, `create_node`,
`create_proposal`, `tag_resource`, `untag_resource`,
`get_token_balance`, `ManagedBlockchainQuery.get_transaction`,
`list_token_balances`, `list_transaction_events`, `list_transactions`,
the five `paginate_*` methods of `managed_blockchain_paginator.py`, and
the `params` assemblies of the seven single-page list wrappers plus
`get_node` and `delete_node`. -/
theorem C8_no_caller_mutation :
    (∀ (s : Store) (network : String) (addrRef : Nat)
      (ft tt' : Option Nat) (vs : Option Bool) (cs : Option Nat)
      (sb so : String) (nt : Option String) (mr : Int),
      ((lfte_assemble s network addrRef ft tt' vs cs sb so nt mr).1).take
          s.length = s ∧
      s.length ≤ (lfte_assemble s network addrRef ft tt' vs cs sb so nt mr).2) ∧
    (∀ (s : Store) (tags : Option Nat),
      ((create_accessor_tags_arg s tags).1).take s.length = s) ∧
    (∀ (s : Store) (tr : Nat) (b e : HVal),
      ((batch_get_token_balance_heap s tr b e).1).take s.length = s) ∧
    (∀ (s : Store) (ed : String) (vp mc : Nat) (tags : Option Nat),
      ((create_network_kwargs_heap s ed vp mc tags).1).take s.length = s) ∧
    (∀ (s : Store) (mn : String) (d : Option String) (au ap : String)
      (tags : Option Nat) (kms : Option String),
      ((create_member_config_heap s mn d au ap tags kms).1).take s.length
        = s) ∧
    (∀ (s : Store) (it : String) (az : Option String) (ecl epl : Bool)
      (db : String) (tags : Option Nat),
      ((create_node_heap s it az ecl epl db tags).1).take s.length = s) ∧
    (∀ (s : Store) (inv rem : Option Nat),
      ((create_proposal_actions_heap s inv rem).1).take s.length = s) ∧
    (∀ (s : Store) (arn : String) (tr : Nat),
      ((tag_resource_heap s arn tr).1).take s.length = s) ∧
    (∀ (s : Store) (arn : String) (tk : Nat),
      ((untag_resource_heap s arn tk).1).take s.length = s) ∧
    (∀ (s : Store) (nw oa : String) (ca tid : Option String)
      (ts : Option Nat),
      ((gtb_assemble s nw oa ca tid ts).1).take s.length = s) ∧
    (∀ (s : Store) (nw : String) (th ti : Option String),
      ((qgt_assemble s nw th ti).1).take s.length = s) ∧
    (∀ (s : Store) (nw : String) (ca tid oa nt : Option String) (mr : Int),
      ((ltb_assemble s nw ca tid oa nt mr).1).take s.length = s) ∧
    (∀ (s : Store) (nw : String) (th ti nt : Option String) (mr : Int),
      ((lte_assemble s nw th ti nt mr).1).take s.length = s) ∧
    (∀ (s : Store) (ad nw : String) (ft tt' nt : Option String)
      (so : String) (mr : Int) (inf : Bool),
      ((ltx_assemble s ad nw ft tt' nt so mr inf).1).take s.length = s) ∧
    (∀ (s : Store) (nw tst da : String) (mi ps : Option Nat)
      (st : Option String),
      ((plac_assemble s nw tst da mi ps st).1).take s.length = s) ∧
    (∀ (s : Store) (nw : String) (ar : Nat) (ft tt' : Option Nat)
      (vs : Option Bool) (cs : Option Nat) (sb so : String)
      (mi ps : Option Nat) (st : Option String),
      ((plfte_assemble s nw ar ft tt' vs cs sb so mi ps st).1).take
          s.length = s) ∧
    (∀ (s : Store) (nw : String) (ca tid oa : Option String)
      (mi ps : Option Nat) (st : Option String),
      ((pltb_assemble s nw ca tid oa mi ps st).1).take s.length = s) ∧
    (∀ (s : Store) (nw : String) (th ti : Option String)
      (mi ps : Option Nat) (st : Option String),
      ((plte_assemble s nw th ti mi ps st).1).take s.length = s) ∧
    (∀ (s : Store) (ad nw : String) (ft tt' : Option Nat) (so : String)
      (inf : Bool) (mi ps : Option Nat) (st : Option String),
      ((pltx_assemble s ad nw ft tt' so inf mi ps st).1).take s.length
        = s) ∧
    (∀ (s : Store) (mr : Option Nat) (nt nty : Option String),
      ((list_accessors_params_heap s mr nt nty).1).take s.length = s) ∧
    (∀ (s : Store) (nid : String) (nm st : Option String)
      (io : Option Bool) (mr : Option Nat) (nt : Option String),
      ((list_members_params_heap s nid nm st io mr nt).1).take s.length
        = s) ∧
    (∀ (s : Store) (nm fw st : Option String) (mr : Option Nat)
      (nt : Option String),
      ((list_networks_params_heap s nm fw st mr nt).1).take s.length = s) ∧
    (∀ (s : Store) (mr : Option Nat) (nt : Option String),
      ((list_invitations_params_heap s mr nt).1).take s.length = s) ∧
    (∀ (s : Store) (nid : String) (mr : Option Nat) (nt : Option String),
      ((list_proposals_params_heap s nid mr nt).1).take s.length = s) ∧
    (∀ (s : Store) (nid pid : String) (mr : Option Nat)
      (nt : Option String),
      ((list_proposal_votes_params_heap s nid pid mr nt).1).take s.length
        = s) ∧
    (∀ (s : Store) (nid : String) (mid st : Option String)
      (mr : Option Nat) (nt : Option String),
      ((list_nodes_params_heap s nid mid st mr nt).1).take s.length = s) ∧
    (∀ (s : Store) (nid ndid : String) (mid : Option String),
      ((get_node_params_heap s nid ndid mid).1).take s.length = s) ∧
    (∀ (s : Store) (nid ndid : String) (mid : Option String),
      ((delete_node_params_heap s nid ndid mid).1).take s.length = s) := by
  refine ⟨?_, ?_, ?_, ?_, ?_, ?_, ?_, ?_, ?_, ?_, ?_, ?_, ?_, ?_, ?_, ?_,
    ?_, ?_, ?_, ?_, ?_, ?_, ?_, ?_, ?_, ?_, ?_, ?_⟩
  · intro s network addrRef ft tt' vs cs sb so nt mr
    constructor
    · refine grows_take ?_
      unfold lfte_assemble
      simp only [alloc]
      exact grows_ntStep _ (by simp only [List.length_append,
          List.length_singleton]; omega)
        (grows_csStep _ (by simp only [List.length_append,
            List.length_singleton]; omega)
          (grows_voutStep _ (by simp only [List.length_append,
              List.length_singleton]; omega)
            (grows_timeFilter _ _ (by simp only [List.length_append,
                List.length_singleton]; omega)
              (grows_alloc _ (grows_alloc _ (grows_alloc _
                (grows_start s)))))))
    · unfold lfte_assemble
      simp only [alloc]
      simp
  · intro s tags
    refine grows_take ?_
    unfold create_accessor_tags_arg
    split
    · exact grows_start s
    · exact grows_alloc _ (grows_start s)
  · intro s tr b e
    refine grows_take ?_
    unfold batch_get_token_balance_heap
    simp only [alloc]
    exact grows_alloc _ (grows_start s)
  · intro s ed vp mc tags
    refine grows_take ?_
    unfold create_network_kwargs_heap
    simp only [alloc]
    exact grows_tagsOrEmpty _ (grows_alloc _ (grows_alloc _
      (grows_alloc _ (grows_start s))))
  · intro s mn d au ap tags kms
    refine grows_take ?_
    unfold create_member_config_heap
    simp only [alloc]
    exact grows_alloc _ (grows_tagsOrEmpty _ (grows_alloc _ (grows_alloc _
      (grows_alloc _ (grows_alloc _ (grows_alloc _ (grows_alloc _
        (grows_start s))))))))
  · intro s it az ecl epl db tags
    refine grows_take ?_
    unfold create_node_heap
    simp only [alloc]
    exact grows_tagsOrEmpty _ (grows_condSetKey _ _
      (by simp only [List.length_append, List.length_singleton]; omega)
      (grows_alloc _ (grows_alloc _ (grows_alloc _ (grows_alloc _
        (grows_alloc _ (grows_alloc _ (grows_alloc _ (grows_start s)))))))))
  · intro s inv rem
    refine grows_take ?_
    unfold create_proposal_actions_heap
    simp only [alloc]
    exact grows_condComprehension _ _ _ (by omega)
      (grows_condComprehension _ _ _ (by omega)
        (grows_alloc _ (grows_start s)))
  · intro s arn tr
    refine grows_take ?_
    unfold tag_resource_heap
    exact grows_start s
  · intro s arn tk
    refine grows_take ?_
    unfold untag_resource_heap
    exact grows_start s
  · intro s nw oa ca tid ts
    refine grows_take ?_
    unfold gtb_assemble
    simp only [alloc]
    exact grows_condAllocSetKey _ _
      (by simp only [condSetKey_length, List.length_append,
          List.length_singleton]; omega)
      (grows_alloc _ (grows_alloc _ (grows_condSetKey _ _ (by omega)
        (grows_condSetKey _ _ (by omega)
          (grows_alloc _ (grows_start s))))))
  · intro s nw th ti
    refine grows_take ?_
    unfold qgt_assemble
    simp only [alloc]
    exact grows_condSetKey _ _ (by omega) (grows_condSetKey _ _ (by omega)
      (grows_alloc _ (grows_start s)))
  · intro s nw ca tid oa nt mr
    refine grows_take ?_
    unfold ltb_assemble
    simp only [alloc]
    exact grows_condSetKey _ _
      (by simp only [List.length_append, List.length_singleton]; omega)
      (grows_condAllocSetKey _ _
        (by simp only [List.length_append, List.length_singleton]; omega)
        (grows_condSetKey _ _ (by omega) (grows_condSetKey _ _ (by omega)
          (grows_alloc _ (grows_alloc _ (grows_start s))))))
  · intro s nw th ti nt mr
    refine grows_take ?_
    unfold lte_assemble
    simp only [alloc]
    exact grows_condSetKey _ _ (by omega) (grows_condSetKey _ _ (by omega)
      (grows_condSetKey _ _ (by omega) (grows_alloc _ (grows_start s))))
  · intro s ad nw ft tt' nt so mr inf
    refine grows_take ?_
    unfold ltx_assemble
    simp only [alloc]
    exact grows_condAllocListSetKey _ _ _
      (by simp only [List.length_append, List.length_singleton]; omega)
      (grows_condSetKey _ _
        (by simp only [List.length_append, List.length_singleton]; omega)
        (grows_condAllocSetKey _ _
          (by simp only [List.length_append, List.length_singleton]; omega)
          (grows_condAllocSetKey _ _
            (by simp only [List.length_append, List.length_singleton]; omega)
            (grows_alloc _ (grows_alloc _ (grows_start s))))))
  · intro s nw tst da mi ps st
    refine grows_take ?_
    unfold plac_assemble
    simp only [alloc]
    exact grows_alloc _ (grows_alloc _ (grows_start s))
  · intro s nw ar ft tt' vs cs sb so mi ps st
    refine grows_take ?_
    unfold plfte_assemble
    simp only [alloc]
    exact grows_alloc _ (grows_csStep _
      (by simp only [List.length_append, List.length_singleton]; omega)
      (grows_voutStep _
        (by simp only [List.length_append, List.length_singleton]; omega)
        (grows_timeFilter _ _
          (by simp only [List.length_append, List.length_singleton]; omega)
          (grows_alloc _ (grows_alloc _ (grows_alloc _ (grows_start s)))))))
  · intro s nw ca tid oa mi ps st
    refine grows_take ?_
    unfold pltb_assemble
    simp only [alloc]
    exact grows_alloc _ (grows_condAllocSetKey _ _
      (by simp only [List.length_append, List.length_singleton]; omega)
      (grows_condSetKey _ _ (by omega) (grows_condSetKey _ _ (by omega)
        (grows_alloc _ (grows_alloc _ (grows_start s))))))
  · intro s nw th ti mi ps st
    refine grows_take ?_
    unfold plte_assemble
    simp only [alloc]
    exact grows_alloc _ (grows_condSetKey _ _ (by omega)
      (grows_condSetKey _ _ (by omega) (grows_alloc _ (grows_start s))))
  · intro s ad nw ft tt' so inf mi ps st
    refine grows_take ?_
    unfold pltx_assemble
    simp only [alloc]
    exact grows_alloc _ (grows_condAllocListSetKey _ _ _
      (by simp only [List.length_append, List.length_singleton]; omega)
      (grows_condAllocSetKey _ _
        (by simp only [List.length_append, List.length_singleton]; omega)
        (grows_condAllocSetKey _ _
          (by simp only [List.length_append, List.length_singleton]; omega)
          (grows_alloc _ (grows_alloc _ (grows_start s))))))
  · intro s mr nt nty
    refine grows_take ?_
    unfold list_accessors_params_heap
    exact grows_paramsPattern _ _ (grows_start s)
  · intro s nid nm st io mr nt
    refine grows_take ?_
    unfold list_members_params_heap
    exact grows_paramsPattern _ _ (grows_start s)
  · intro s nm fw st mr nt
    refine grows_take ?_
    unfold list_networks_params_heap
    exact grows_paramsPattern _ _ (grows_start s)
  · intro s mr nt
    refine grows_take ?_
    unfold list_invitations_params_heap
    exact grows_paramsPattern _ _ (grows_start s)
  · intro s nid mr nt
    refine grows_take ?_
    unfold list_proposals_params_heap
    exact grows_paramsPattern _ _ (grows_start s)
  · intro s nid pid mr nt
    refine grows_take ?_
    unfold list_proposal_votes_params_heap
    exact grows_paramsPattern _ _ (grows_start s)
  · intro s nid mid st mr nt
    refine grows_take ?_
    unfold list_nodes_params_heap
    exact grows_paramsPattern _ _ (grows_start s)
  · intro s nid ndid mid
    refine grows_take ?_
    unfold get_node_params_heap
    exact grows_paramsPattern _ _ (grows_start s)
  · intro s nid ndid mid
    refine grows_take ?_
    unfold delete_node_params_heap
    exact grows_paramsPattern _ _ (grows_start s)

/-- C9: `ManagedBlockchainQuery.get_transaction` raises `ValueError`
exactly when both `transaction_hash` and `transaction_id` are falsy,
performs no client call in that case, and silently omits
`transactionId` from every request it sends when the network is not a
Bitcoin network. -/
theorem C9_query_get_transaction :
    ∀ (β : Type) (client : QueryGetTxReq → Except BotoErr (List (String × β)))
      (network : String) (th ti : Option String),
      ((query_get_transaction client network th ti).2 = .error .valueError
        ↔ (strTruthy th = false ∧ strTruthy ti = false)) ∧
      (strTruthy th = false ∧ strTruthy ti = false →
        (query_get_transaction client network th ti).1 = []) ∧
      (∀ req, req ∈ (query_get_transaction client network th ti).1 →
        network ∉ ["BITCOIN_MAINNET", "BITCOIN_TESTNET"] →
        req.transactionId = none) := by
  intro β client network th ti
  by_cases h : strTruthy th = false ∧ strTruthy ti = false
  · refine ⟨?_, fun _ => ?_, ?_⟩
    · simp [query_get_transaction, h]
    · simp [query_get_transaction, h]
    · intro req hreq _
      simp [query_get_transaction, h] at hreq
  · refine ⟨?_, fun hc => absurd hc h, ?_⟩
    · constructor
      · intro hres
        exfalso
        simp only [query_get_transaction, if_neg h] at hres
        rcases hcl : client
            { network := network
              transactionHash := if strTruthy th then th else none
              transactionId :=
                if strTruthy ti ∧
                    network ∈ ["BITCOIN_MAINNET", "BITCOIN_TESTNET"] then ti
                else none } with e | r
        · rw [hcl] at hres
          cases e <;> simp at hres
        · rw [hcl] at hres
          simp at hres
      · intro hc
        exact absurd hc h
    · intro req hreq hnet
      simp only [query_get_transaction, if_neg h, List.mem_singleton] at hreq
      subst hreq
      simp only
      rw [if_neg]
      intro hand
      exact hnet hand.2

/-- C9 witness: with both identifiers absent the wrapper raises
`ValueError` and performs no call; with a hash on a non-Bitcoin network
the request sent carries no `transactionId`. -/
theorem C9_query_get_transaction_witness :
    (query_get_transaction (β := String) (fun _ => .ok [])
      "ETHEREUM_MAINNET" none none).1 = [] ∧
    (⟨"ETHEREUM_MAINNET", some "0xh", none⟩ : QueryGetTxReq).transactionId
      = none := by
  constructor
  · exact (C9_query_get_transaction String (fun _ => .ok [])
      "ETHEREUM_MAINNET" none none).2.1 ⟨rfl, rfl⟩
  · exact (C9_query_get_transaction String (fun _ => .ok [])
      "ETHEREUM_MAINNET" (some "0xh") (some "tid")).2.2
      ⟨"ETHEREUM_MAINNET", some "0xh", none⟩ (by decide) (by decide)

/-- C10: `vote_on_proposal` never sends a vote outside
`{"YES", "NO"}` — it returns `False` with no client call — and for a
valid vote it sends exactly one request and returns `True` exactly when
the client call succeeds, `False` when the call raises
`BotoCoreError`. -/
theorem C10_vote_on_proposal :
    ∀ (α : Type) (client : VoteOnProposalKwargs → Except BotoErr α)
      (nid pid vid vote : String),
      (vote ∉ ["YES", "NO"] →
        vote_on_proposal client nid pid vid vote = ([], .ok false)) ∧
      (vote ∈ ["YES", "NO"] →
        (vote_on_proposal client nid pid vid vote).1 = [⟨nid, pid, vid, vote⟩] ∧
        ((vote_on_proposal client nid pid vid vote).2 = .ok true
          ↔ ∃ r, client ⟨nid, pid, vid, vote⟩ = .ok r) ∧
        (client ⟨nid, pid, vid, vote⟩ = .error .botoCore →
          (vote_on_proposal client nid pid vid vote).2 = .ok false)) := by
  intro α client nid pid vid vote
  constructor
  · intro hv
    simp [vote_on_proposal, hv]
  · intro hv
    have hv' : ¬vote ∉ ["YES", "NO"] := fun hc => hc hv
    refine ⟨?_, ?_, ?_⟩
    · rw [vote_on_proposal, if_neg hv']
    · rw [vote_on_proposal, if_neg hv']
      dsimp only
      rcases hcl : client ⟨nid, pid, vid, vote⟩ with e | r
      · cases e <;> simp
      · simp
    · intro hcl
      rw [vote_on_proposal, if_neg hv']
      dsimp only
      rw [hcl]

/-- C10 witness: an invalid vote is rejected locally; a valid vote with
a succeeding client returns `True`, with a `BotoCoreError`-raising
client returns `False`. -/
theorem C10_vote_on_proposal_witness :
    vote_on_proposal (α := Unit) (fun _ => .ok ()) "n-1" "p-1" "m-1" "MAYBE"
      = ([], .ok false) ∧
    (vote_on_proposal (α := Unit) (fun _ => .ok ()) "n-1" "p-1" "m-1" "YES").2
      = .ok true ∧
    (vote_on_proposal (α := Unit) (fun _ => .error .botoCore)
      "n-1" "p-1" "m-1" "NO").2 = .ok false := by
  refine ⟨?_, ?_, ?_⟩
  · exact (C10_vote_on_proposal Unit (fun _ => .ok ())
      "n-1" "p-1" "m-1" "MAYBE").1 (by decide)
  · exact ((C10_vote_on_proposal Unit (fun _ => .ok ())
      "n-1" "p-1" "m-1" "YES").2 (by decide)).2.1.mpr ⟨(), rfl⟩
  · exact ((C10_vote_on_proposal Unit (fun _ => .error .botoCore)
      "n-1" "p-1" "m-1" "NO").2 (by decide)).2.2 rfl

end AwsManagedBlockchain
